import Mathlib

/-!
Verification development for the Conectate ticketing backend
(node_conectate_ofi).  The definitions below are a shallow embedding of the
Ticket Lifecycle & Notification Fan-out subsystem:

* data rows mirror the Sequelize models (src/Models/Tickets/*, Core/*);
* controllers are translated from
  src/Controllers/Tickets/CTS_TB_Tickets.js (CR_Ticket_CTS,
  CR_Ticket_CambiarEstado_CTS, obtenerDestinatariosSupervisionPorSucursal),
  src/Controllers/Tickets/CTS_TB_TicketAdjuntos.js (CR_TicketAdjunto_CTS),
  src/Controllers/Tickets/CTS_TB_Notificaciones.js (CR_Notificacion_CTS,
  UR_Notificacion_MarcarLeida_CTS) and
  src/Utils/notificacionesTicketService.js
  (obtenerDestinatariosTicketCreado, crearNotificacionesPorTicketCreado,
  enviarEmailsPorTicketCreado).

The database is a record of lists of rows; a controller is a function from
the database (plus request data) to the new database and an HTTP-style
result.  Sequelize transactions are modelled by returning the original
database on every rollback path.  External collaborators (mail transport,
clock, infrastructure failures) enter as explicit parameters.  The audit-log
table (logs_actividad) is outside the modelled state: the controllers only
append to it after the transaction, and no claim mentions it.
-/

namespace Conectate

/-- Row of the usuarios table (MD_TB_Usuarios).  Roles and states are the
strings used by the source (operador_sucursal / supervisor / admin,
activo / inactivo).  An absent or empty email is what the JS code treats as
falsy, so email is an Option and the empty string is handled explicitly by
usableEmail below. -/
structure Usuario where
  id : Nat
  nombre : String
  email : Option String
  rol : String
  estado : String
  sucursal_id : Option Nat
deriving Repr, DecidableEq

/-- Row of the sucursales table (MD_TB_Sucursales), the fields the ticket
subsystem reads. -/
structure Sucursal where
  id : Nat
  nombre : String
  ciudad : Option String
deriving Repr, DecidableEq

/-- Row of the tickets table (MD_TB_Tickets).  Timestamps are abstract
naturals; created_at is filled from the clock parameter of the creating
controller. -/
structure Ticket where
  id : Nat
  fecha_ticket : String
  hora_ticket : Option String
  sucursal_id : Nat
  usuario_creador_id : Nat
  estado : String
  asunto : String
  descripcion : Option String
  observaciones_supervisor : Option String
  fecha_cierre : Option Nat
  created_at : Nat
deriving Repr, DecidableEq

/-- Row of the ticket_estados_historial table
(MD_TB_TicketEstadosHistorial). -/
structure HistEntry where
  ticket_id : Nat
  estado_anterior : Option String
  estado_nuevo : String
  usuario_id : Option Nat
  comentario : Option String
deriving Repr, DecidableEq

/-- Row of the ticket_adjuntos table (MD_TB_TicketAdjuntos).  es_principal
is the 0/1 flag of the source schema. -/
structure Adjunto where
  id : Nat
  ticket_id : Nat
  tipo : String
  nombre_original : String
  ruta_archivo : String
  mime_type : String
  tamano_bytes : Nat
  es_principal : Nat
deriving Repr, DecidableEq

/-- Row of the notificaciones table (MD_TB_Notificaciones).  fecha_creacion
is omitted: it is a database default used only for ordering in list
endpoints, which no claim touches. -/
structure Notificacion where
  id : Nat
  ticket_id : Option Nat
  usuario_origen_id : Option Nat
  usuario_destino_id : Nat
  canal : String
  asunto : String
  mensaje : String
  estado_envio : String
  fecha_envio : Option Nat
  fecha_lectura : Option Nat
deriving Repr, DecidableEq

/-- Whole persistent state.  nextId models the autoincrement id allocator
(one shared counter keeps every freshly created row id unique). -/
structure DB where
  usuarios : List Usuario
  sucursales : List Sucursal
  tickets : List Ticket
  historial : List HistEntry
  adjuntos : List Adjunto
  notificaciones : List Notificacion
  nextId : Nat
deriving Repr, DecidableEq

/-- Identity context extracted from req.user by getUserContext in the
controllers: id, rol and sucursal_id, each null when absent. -/
structure UserCtx where
  id : Option Nat
  rol : Option String
  sucursal_id : Option Nat
deriving Repr, DecidableEq

/-- Result of a controller: res.json(payload) or
res.status(code).json(mensajeError). -/
inductive ApiResult (α : Type) where
  | ok : α → ApiResult α
  | err : Nat → String → ApiResult α
deriving Repr, DecidableEq

/-- True exactly on the success constructor. -/
def ApiResult.isOk {α : Type} : ApiResult α → Bool
  | .ok _ => true
  | .err _ _ => false

/-- HTTP status of an error result, none on success. -/
def ApiResult.statusCode {α : Type} : ApiResult α → Option Nat
  | .ok _ => none
  | .err s _ => some s

/-- Count of the rows of a list satisfying a boolean predicate. -/
def countP {α : Type} (l : List α) (p : α → Bool) : Nat :=
  (l.filter p).length

/-- Truthiness of a user's email in the JS sense: a missing email and the
empty string are both falsy (the source tests !u.email and
!destinatario.email). -/
def usableEmail (u : Usuario) : Bool :=
  match u.email with
  | none => false
  | some s => !(s = "")

/-- Truthiness normalisation for optional strings: the empty string becomes
null, mirroring (hora_ticket || null) and (descripcion || null). -/
def orNullStr : Option String → Option String
  | none => none
  | some s => if s = "" then none else some s

/-- List of valid ticket states, ESTADOS_VALIDOS of CTS_TB_Tickets.js.
Note it does not contain pendiente_adjuntos. -/
def ESTADOS_VALIDOS : List String :=
  [("abierto"), ("pendiente"), ("autorizado"), ("rechazado"), ("cerrado")]

/-- States in which attachments may be modified, ESTADOS_EDITABLES of
CTS_TB_TicketAdjuntos.js. -/
def ESTADOS_EDITABLES : List String :=
  [("abierto"), ("pendiente"), ("pendiente_adjuntos")]

/-! ## Notification fan-out service (src/Utils/notificacionesTicketService.js) -/

/-- Subject of a ticket-created notification (buildAsuntoTicketCreado). -/
def buildAsuntoTicketCreado (ticket : Ticket) : String :=
  ("Nuevo ticket #") ++ toString ticket.id ++ (" creado")

/-- Stand-in for the date-fns format call of buildMensajeTicketCreado; the
formatting library is an external collaborator and no claim depends on the
rendered text. -/
def formatFechaHora (n : Nat) : String :=
  toString n

/-- Body of a ticket-created notification (buildMensajeTicketCreado).  The
JS fallbacks via || on operador?.nombre, sucursal?.nombre, ticket.estado and
ticket.asunto are translated with explicit empty-string tests. -/
def buildMensajeTicketCreado (ticket : Ticket) (operador : Option Usuario)
    (sucursal : Option Sucursal) (canalTexto : String) : String :=
  let operadorNombre :=
    match operador with
    | some o => if o.nombre = "" then ("Operador") else o.nombre
    | none => ("Operador")
  let sucNombre :=
    match sucursal with
    | some s => if s.nombre = "" then ("Sucursal") else s.nombre
    | none => ("Sucursal")
  let sucCiudad :=
    match sucursal with
    | some s =>
      match s.ciudad with
      | some c => if c = "" then ("") else (" (") ++ c ++ (")")
      | none => ("")
    | none => ("")
  let fechaFormateada := formatFechaHora ticket.created_at
  let estado := if ticket.estado = "" then ("pendiente") else ticket.estado
  let asuntoTicket := if ticket.asunto = "" then ("(sin asunto)") else ticket.asunto
  ("El operador ") ++ operadorNombre ++ (" creó el ticket #") ++ toString ticket.id ++
    (" en la sucursal ") ++ sucNombre ++ sucCiudad ++
    (", con estado \"") ++ estado ++ ("\" y asunto \"") ++ asuntoTicket ++ ("\".\n\n") ++
    ("Creada: ") ++ fechaFormateada ++ ("\n") ++
    ("Canal: ") ++ canalTexto ++ ("\n") ++
    ("Ticket #") ++ toString ticket.id

/-- Filter step of obtenerDestinatariosTicketCreado.  The source keeps an
array element u at position index iff u.email is truthy and
arr.findIndex(x => x.id === u.id) === index, i.e. iff u has a usable email
and is the first occurrence of its id in the array.  The index-based test is
modelled with an accumulator of the ids already traversed. -/
def filtrarDestinatarios : List Usuario → List Nat → List Usuario
  | [], _ => []
  | u :: rest, vistos =>
    if vistos.contains u.id then filtrarDestinatarios rest vistos
    else if usableEmail u then u :: filtrarDestinatarios rest (u.id :: vistos)
    else filtrarDestinatarios rest (u.id :: vistos)

/-- Supervisor query of obtenerDestinatariosTicketCreado: every active
supervisor, with no branch condition (the source comments this as the MVP
rule). -/
def supervisoresActivos (usuarios : List Usuario) : List Usuario :=
  usuarios.filter (fun u => u.rol == ("supervisor") && u.estado == ("activo"))

/-- Candidate recipients before the email/first-occurrence filter: the
creating operator (when found) followed by every active supervisor. -/
def poolDestinatarios (usuarios : List Usuario) (ticket : Ticket) :
    List Usuario :=
  (match usuarios.find? (fun u => u.id == ticket.usuario_creador_id) with
   | some o => [o]
   | none => []) ++ supervisoresActivos usuarios

/-- Recipient resolution of obtenerDestinatariosTicketCreado: the creating
operator plus every active supervisor, then the email/first-occurrence
filter.  Returns (operador, destinatarios). -/
def destinatariosDe (usuarios : List Usuario) (ticket : Ticket) :
    Option Usuario × List Usuario :=
  (usuarios.find? (fun u => u.id == ticket.usuario_creador_id),
   filtrarDestinatarios (poolDestinatarios usuarios ticket) [])

/-- Loop body of crearNotificacionesPorTicketCreado: per recipient, one
interno notification (estado_envio enviado) then one email notification
(estado_envio pendiente), with autoincremented ids. -/
def crearNotifsLoop (ticket : Ticket) (operador : Option Usuario)
    (sucursal : Option Sucursal) (asunto : String) :
    List Usuario → Nat → List Notificacion
  | [], _ => []
  | d :: ds, nid =>
    { id := nid
      ticket_id := some ticket.id
      usuario_origen_id := operador.map (fun o => o.id)
      usuario_destino_id := d.id
      canal := ("interno")
      asunto := asunto
      mensaje := buildMensajeTicketCreado ticket operador sucursal ("interno")
      estado_envio := ("enviado")
      fecha_envio := none
      fecha_lectura := none } ::
    { id := nid + 1
      ticket_id := some ticket.id
      usuario_origen_id := operador.map (fun o => o.id)
      usuario_destino_id := d.id
      canal := ("email")
      asunto := asunto
      mensaje := buildMensajeTicketCreado ticket operador sucursal ("email")
      estado_envio := ("pendiente")
      fecha_envio := none
      fecha_lectura := none } ::
    crearNotifsLoop ticket operador sucursal asunto ds (nid + 2)

/-- Notification rows produced by one fan-out invocation, as a function of
the tables it reads (usuarios, sucursales), the ticket and the first fresh
id. -/
def fanOutNotifs (usuarios : List Usuario) (sucursales : List Sucursal)
    (ticket : Ticket) (baseId : Nat) : List Notificacion :=
  let od := destinatariosDe usuarios ticket
  let sucursal := sucursales.find? (fun s => s.id == ticket.sucursal_id)
  crearNotifsLoop ticket od.1 sucursal (buildAsuntoTicketCreado ticket) od.2 baseId

/-- Return value of crearNotificacionesPorTicketCreado. -/
structure FanOutResult where
  operador : Option Usuario
  destinatarios : List Usuario
  notifsCreadas : List Notificacion
deriving Repr, DecidableEq

/-- Translation of crearNotificacionesPorTicketCreado: resolves the branch
and the recipients, then inserts the two notification rows per recipient
inside the caller's transaction. -/
def crearNotificacionesPorTicketCreado (db : DB) (ticket : Ticket) :
    DB × FanOutResult :=
  let od := destinatariosDe db.usuarios ticket
  let nuevos := fanOutNotifs db.usuarios db.sucursales ticket db.nextId
  ({ db with
      notificaciones := db.notificaciones ++ nuevos
      nextId := db.nextId + 2 * od.2.length },
   { operador := od.1, destinatarios := od.2, notifsCreadas := nuevos })

/-- Update of one notification row's delivery fields, as done by
notif.update({estado_envio, fecha_envio}) in enviarEmailsPorTicketCreado. -/
def updateNotifEnvio (db : DB) (notifId : Nat) (estado : String) (now : Nat) : DB :=
  { db with
      notificaciones := db.notificaciones.map (fun n =>
        if n.id == notifId then
          { n with estado_envio := estado, fecha_envio := some now }
        else n) }

/-- Delivery outcome for one pending email notification: destination user
missing or without usable email gives error; otherwise the transport result
decides between enviado and error.  sendOk models the external mail
transport (sendTicketCreatedMail): sendOk i is false when the send for
notification i raises. -/
def desenlaceEnvio (sendOk : Nat → Bool) (usuarios : List Usuario)
    (n : Notificacion) : String :=
  match usuarios.find? (fun u => u.id == n.usuario_destino_id) with
  | none => ("error")
  | some d =>
    if usableEmail d then
      if sendOk n.id then ("enviado") else ("error")
    else ("error")

/-- Per-notification step of the email worker: every branch of the
source loop (missing destination, successful send, transport failure caught
by the try/catch) ends in one update stamping fecha_envio. -/
def procesarNotifEmail (sendOk : Nat → Bool) (now : Nat) (db : DB)
    (n : Notificacion) : DB :=
  updateNotifEnvio db n.id (desenlaceEnvio sendOk db.usuarios n) now

/-- Pending email notifications of one ticket, the findAll of
enviarEmailsPorTicketCreado. -/
def notifsEmailPendientes (db : DB) (ticketId : Nat) : List Notificacion :=
  db.notificaciones.filter (fun n =>
    n.ticket_id == some ticketId && n.canal == ("email") &&
      n.estado_envio == ("pendiente"))

/-- Translation of enviarEmailsPorTicketCreado: missing ticket returns with
no effect; otherwise every pending email notification of the ticket is
processed in order, each one independently marked enviado or error.  The
function is total: a transport failure is caught inside the loop
(modelled by sendOk) and never escapes. -/
def enviarEmailsPorTicketCreado (sendOk : Nat → Bool) (now : Nat) (db : DB)
    (ticketId : Nat) : DB :=
  match db.tickets.find? (fun t => t.id == ticketId) with
  | none => db
  | some _ =>
    (notifsEmailPendientes db ticketId).foldl (procesarNotifEmail sendOk now) db

/-! ## Ticket controllers (src/Controllers/Tickets/CTS_TB_Tickets.js) -/

/-- Tier 1 of the tiered recipient fallback: active supervisors of the given
branch. -/
def supervisoresDeSucursal (db : DB) (sucursalId : Nat) : List Usuario :=
  db.usuarios.filter (fun u =>
    u.rol == ("supervisor") && u.estado == ("activo") &&
      u.sucursal_id == some sucursalId)

/-- Tier 2: active supervisors with no branch binding (sucursal_id NULL). -/
def supervisoresGlobales (db : DB) : List Usuario :=
  db.usuarios.filter (fun u =>
    u.rol == ("supervisor") && u.estado == ("activo") && u.sucursal_id == none)

/-- Tier 3: active admins. -/
def adminsActivos (db : DB) : List Usuario :=
  db.usuarios.filter (fun u => u.rol == ("admin") && u.estado == ("activo"))

/-- Translation of obtenerDestinatariosSupervisionPorSucursal
(CTS_TB_Tickets.js): first non-empty tier among branch supervisors, global
supervisors and admins. -/
def obtenerDestinatariosSupervisionPorSucursal (db : DB) (sucursalId : Nat) :
    List Usuario :=
  let supervisoresMismaSucursal := supervisoresDeSucursal db sucursalId
  if supervisoresMismaSucursal.length > 0 then supervisoresMismaSucursal
  else
    let supervisoresGlob := supervisoresGlobales db
    if supervisoresGlob.length > 0 then supervisoresGlob
    else adminsActivos db

/-- Request body of POST /tickets.  sucursal_id is modelled already parsed
to a number (the Number(...) NaN branch is a transport-level parse failure
outside the embedding). -/
structure CreateTicketReq where
  fecha_ticket : String
  hora_ticket : Option String
  sucursal_id : Option Nat
  asunto : String
  descripcion : Option String
deriving Repr, DecidableEq

/-- Branch resolution of CR_Ticket_CTS step 2, as a partial function used to
state the theorems: an explicit sucursal_id must exist in the sucursales
table, otherwise the actor's home branch is used. -/
def sucursalResuelta (db : DB) (ctx : UserCtx) (req : CreateTicketReq) :
    Option Nat :=
  match req.sucursal_id with
  | some sid => if db.sucursales.any (fun s => s.id == sid) then some sid else none
  | none => ctx.sucursal_id

/-- Ticket row inserted by step 4 of CR_Ticket_CTS: initial state
pendiente, trimmed subject, creator and resolved branch. -/
def nuevoTicket (now : Nat) (db : DB) (req : CreateTicketReq)
    (sucursalFinalId uid : Nat) : Ticket :=
  { id := db.nextId
    fecha_ticket := req.fecha_ticket
    hora_ticket := orNullStr req.hora_ticket
    sucursal_id := sucursalFinalId
    usuario_creador_id := uid
    estado := ("pendiente")
    asunto := req.asunto.trim
    descripcion := orNullStr req.descripcion
    observaciones_supervisor := none
    fecha_cierre := none
    created_at := now }

/-- Synthetic first history entry of a created ticket (step 5 of
CR_Ticket_CTS): previous state null, new state pendiente. -/
def histPrimerEstado (ticketId uid : Nat) : HistEntry :=
  { ticket_id := ticketId
    estado_anterior := none
    estado_nuevo := ("pendiente")
    usuario_id := some uid
    comentario := some ("Ticket creado") }

/-- Steps 3 to 7 of CR_Ticket_CTS, after the branch was resolved: validate
the creator, insert the ticket (estado pendiente), insert the synthetic
first history entry (null to pendiente), run the fan-out, commit.
fanOutFalla models a TransientInfraError raised by the store inside
crearNotificacionesPorTicketCreado: the source has no try/catch around that
call, so the error reaches the outer catch which rolls the transaction back
and answers 500. -/
def crTicketConSucursal (fanOutFalla : Bool) (now : Nat) (db : DB)
    (ctx : UserCtx) (req : CreateTicketReq) (sucursalFinalId : Nat) :
    DB × ApiResult Ticket :=
  match ctx.id with
  | none => (db, .err 400 ("No se pudo determinar el usuario creador (req.user.id nulo)"))
  | some uid =>
    let nuevo := nuevoTicket now db req sucursalFinalId uid
    let dbT := { db with tickets := db.tickets ++ [nuevo], nextId := db.nextId + 1 }
    let dbH := { dbT with historial := dbT.historial ++ [histPrimerEstado nuevo.id uid] }
    if fanOutFalla then
      (db, .err 500 ("Error de infraestructura durante la creación de notificaciones"))
    else
      ((crearNotificacionesPorTicketCreado dbH nuevo).1, .ok nuevo)

/-- Translation of CR_Ticket_CTS (POST /tickets).  Field validation, branch
resolution, then the transactional creation.  Every early return before
commit leaves the database untouched (transaction.rollback).  The
post-commit audit log and the detached enviarEmailsPorTicketCreado task are
outside this function, as they are outside the transaction in the source. -/
def CR_Ticket_CTS (fanOutFalla : Bool) (now : Nat) (db : DB) (ctx : UserCtx)
    (req : CreateTicketReq) : DB × ApiResult Ticket :=
  if req.fecha_ticket = "" ∨ req.asunto = "" then
    (db, .err 400 ("Los campos fecha_ticket y asunto son obligatorios"))
  else
    match req.sucursal_id with
    | some sid =>
      if db.sucursales.any (fun s => s.id == sid) then
        crTicketConSucursal fanOutFalla now db ctx req sid
      else (db, .err 400 ("No existe la sucursal indicada"))
    | none =>
      match ctx.sucursal_id with
      | some sc => crTicketConSucursal fanOutFalla now db ctx req sc
      | none =>
        (db, .err 400 ("No se pudo determinar la sucursal. Envíe sucursal_id o asigne sucursal al usuario."))

/-- Request body of POST /tickets/:id/cambiar-estado. -/
structure CambiarEstadoReq where
  nuevo_estado : String
  comentario : Option String
deriving Repr, DecidableEq

/-- Translation of String(nuevo_estado || '').trim().toLowerCase(), written
over the character list so that it evaluates inside the kernel. -/
def normalizarEstado (s : String) : String :=
  String.mk
    (((s.toList.dropWhile Char.isWhitespace).reverse.dropWhile
        Char.isWhitespace).reverse.map Char.toLower)

/-- Ticket-row update applied by CR_Ticket_CambiarEstado_CTS: new state,
fecha_cierre when closing, comment appended to observaciones_supervisor
(separator-joined) when entering autorizado, rechazado or cerrado. -/
def aplicarCambioEstado (ticket : Ticket) (estadoNuevo : String)
    (comentario : Option String) (now : Nat) : Ticket :=
  let conEstado := { ticket with estado := estadoNuevo }
  let conCierre :=
    if estadoNuevo = ("cerrado") then
      { conEstado with fecha_cierre := some now }
    else conEstado
  match comentario with
  | some c =>
    if !(c = "") ∧
        [("autorizado"), ("rechazado"), ("cerrado")].contains estadoNuevo then
      let prevObs :=
        match conCierre.observaciones_supervisor with
        | some o => o
        | none => ("")
      let sep := if prevObs = "" then ("") else ("\n---\n")
      { conCierre with observaciones_supervisor := some (prevObs ++ sep ++ c) }
    else conCierre
  | none => conCierre

/-- Map-update of one ticket row, as TicketsModel.update(updates, where id). -/
def actualizarTicket (db : DB) (ticketId : Nat) (f : Ticket → Ticket) : DB :=
  { db with
      tickets := db.tickets.map (fun t => if t.id == ticketId then f t else t) }

/-- Translation of CR_Ticket_CambiarEstado_CTS (POST
/tickets/:id/cambiar-estado): normalises the requested state, validates it
against ESTADOS_VALIDOS, requires a supervisor or admin, rejects a no-op
transition and any transition out of cerrado, then appends the history
entry and updates the ticket row. -/
def CR_Ticket_CambiarEstado_CTS (now : Nat) (db : DB) (ctx : UserCtx)
    (ticketId : Nat) (req : CambiarEstadoReq) : DB × ApiResult Ticket :=
  let estadoNormalizado := normalizarEstado req.nuevo_estado
  if estadoNormalizado = "" ∨ ESTADOS_VALIDOS.contains estadoNormalizado = false then
    (db, .err 400 ("Estado inválido"))
  else
    match db.tickets.find? (fun t => t.id == ticketId) with
    | none => (db, .err 404 ("Ticket no encontrado"))
    | some ticket =>
      if ¬(ctx.rol = some ("supervisor") ∨ ctx.rol = some ("admin")) then
        (db, .err 403 ("No tiene permisos para cambiar el estado del ticket"))
      else
        let estadoAnterior := ticket.estado
        if estadoAnterior = estadoNormalizado then
          (db, .err 400 ("El ticket ya se encuentra en el estado solicitado (no hay cambio)"))
        else if estadoAnterior = ("cerrado") then
          (db, .err 400 ("No se puede cambiar el estado de un ticket ya cerrado"))
        else
          let hist : HistEntry :=
            { ticket_id := ticket.id
              estado_anterior := some estadoAnterior
              estado_nuevo := estadoNormalizado
              usuario_id := ctx.id
              comentario := orNullStr req.comentario }
          let db1 := { db with historial := db.historial ++ [hist] }
          let db2 := actualizarTicket db1 ticketId
            (fun t => aplicarCambioEstado t estadoNormalizado
              (orNullStr req.comentario) now)
          (db2, .ok (aplicarCambioEstado ticket estadoNormalizado
            (orNullStr req.comentario) now))

/-! ## Attachment controller (src/Controllers/Tickets/CTS_TB_TicketAdjuntos.js) -/

/-- File metadata produced by the multer middleware for one uploaded file. -/
structure UploadedFile where
  originalname : String
  mimetype : String
  size : Nat
  ruta_relativa : String
deriving Repr, DecidableEq

/-- Body fields of POST /tickets/:ticketId/adjuntos. -/
structure AdjuntoBody where
  tipo : Option String
  es_principal : Option String
deriving Repr, DecidableEq

/-- Success payload of CR_TicketAdjunto_CTS. -/
structure AdjuntosOut where
  adjuntos : List Adjunto
  ticketFinalizado : Bool
deriving Repr, DecidableEq

/-- Auxiliary recursion for the substring test: sub occurs in the list at
some position. -/
def listIncludes (sub : List Char) : List Char → Bool
  | [] => sub.isEmpty
  | c :: rest => sub.isPrefixOf (c :: rest) || listIncludes sub rest

/-- Substring test used to translate String.prototype.includes. -/
def strIncludes (s sub : String) : Bool :=
  listIncludes sub.toList s.toList

/-- Translation of inferTipoFromMime. -/
def inferTipoFromMime (mimetype : String) : String :=
  let mt := mimetype.toLower
  if mt.startsWith ("image/") then ("imagen")
  else if strIncludes mt ("sheet") || strIncludes mt ("excel") then ("excel")
  else if strIncludes mt ("pdf") then ("pdf")
  else ("otro")

/-- Truthy-string normalisation of the es_principal body field. -/
def parseEsPrincipal (s : String) : Bool :=
  [("1"), ("true"), ("si"), ("sí"), ("yes")].contains s.toLower

/-- Attachment classification for one file: the body tipo when it is one of
the four valid values, otherwise inferred from the MIME type. -/
def tipoFinalDe (tipo : Option String) (mimetype : String) : String :=
  match tipo with
  | some tp =>
    if [("imagen"), ("excel"), ("pdf"), ("otro")].contains tp then tp
    else inferTipoFromMime mimetype
  | none => inferTipoFromMime mimetype

/-- Demotion of every attachment of a ticket to es_principal = 0
(TicketAdjuntosModel.update es_principal 0 where ticket_id). -/
def demoterPrincipales (db : DB) (ticketId : Nat) : DB :=
  { db with
      adjuntos := db.adjuntos.map (fun a =>
        if a.ticket_id == ticketId then { a with es_principal := 0 } else a) }

/-- Attachment rows created by the upload loop.  esP is the es_principal
flag of the current file: esPrincipalGlobal for the first file, false for
every later one (esPrincipalAdj = esPrincipalGlobal && i === 0). -/
def nuevosAdjuntos (ticketId : Nat) (tipo : Option String) :
    Bool → List UploadedFile → Nat → List Adjunto
  | _, [], _ => []
  | esP, f :: fs, aid =>
    { id := aid
      ticket_id := ticketId
      tipo := tipoFinalDe tipo f.mimetype
      nombre_original := f.originalname
      ruta_archivo := f.ruta_relativa
      mime_type := f.mimetype
      tamano_bytes := f.size
      es_principal := if esP then 1 else 0 } ::
    nuevosAdjuntos ticketId tipo false fs (aid + 1)

/-- History entry appended when the attachment gate fires. -/
def histGateAdjuntos (ticketId : Nat) (usuarioId : Option Nat) : HistEntry :=
  { ticket_id := ticketId
    estado_anterior := some ("pendiente_adjuntos")
    estado_nuevo := ("pendiente")
    usuario_id := usuarioId
    comentario := some ("Adjuntos cargados. Ticket habilitado.") }

/-- Transactional body of CR_TicketAdjunto_CTS after the validations:
resolve the es_principal designation (explicit, or by default when the
ticket has no current primary), demote siblings when a new primary is
designated, insert one row per file, then the gate: a ticket that entered in
pendiente_adjuntos and now counts at least one attachment transitions to
pendiente, gets one history entry and re-runs the fan-out, all inside the
same transaction. -/
def adjuntarYFinalizar (db : DB) (ctx : UserCtx) (ticketId : Nat)
    (ticket : Ticket) (files : List UploadedFile) (body : AdjuntoBody) :
    DB × AdjuntosOut :=
  let esPrincipalGlobal :=
    match body.es_principal with
    | some v => parseEsPrincipal v
    | none =>
      countP db.adjuntos (fun a => a.ticket_id == ticketId && a.es_principal == 1) == 0
  let db1 := if esPrincipalGlobal then demoterPrincipales db ticketId else db
  let nuevos := nuevosAdjuntos ticketId body.tipo esPrincipalGlobal files db1.nextId
  let db2 := { db1 with adjuntos := db1.adjuntos ++ nuevos, nextId := db1.nextId + nuevos.length }
  if ticket.estado = ("pendiente_adjuntos") then
    if 1 ≤ countP db2.adjuntos (fun a => a.ticket_id == ticketId) then
      let tAct := { ticket with estado := ("pendiente") }
      let db3 := actualizarTicket db2 ticketId (fun t => { t with estado := ("pendiente") })
      let db4 := { db3 with historial := db3.historial ++ [histGateAdjuntos ticketId ctx.id] }
      let db5 := (crearNotificacionesPorTicketCreado db4 tAct).1
      (db5, { adjuntos := nuevos, ticketFinalizado := true })
    else (db2, { adjuntos := nuevos, ticketFinalizado := false })
  else (db2, { adjuntos := nuevos, ticketFinalizado := false })

/-- Translation of CR_TicketAdjunto_CTS (POST /tickets/:ticketId/adjuntos):
parameter and file presence checks, ticket load under the exclusive row
lock (the lock serialises concurrent uploads; the embedding is sequential so
the load is a plain lookup), the permission and editable-state assertions of
assertTicketPermission, then the transactional upload and gate.  Every
rejection path returns the database unchanged. -/
def CR_TicketAdjunto_CTS (db : DB) (ctx : UserCtx) (ticketId? : Option Nat)
    (files : List UploadedFile) (body : AdjuntoBody) :
    DB × ApiResult AdjuntosOut :=
  match ticketId? with
  | none => (db, .err 400 ("Debe indicar ticketId en ruta o body"))
  | some ticketId =>
    if files = [] then
      (db, .err 400 ("No se recibió ningún archivo"))
    else
      match db.tickets.find? (fun t => t.id == ticketId) with
      | none => (db, .err 404 ("Ticket no encontrado"))
      | some ticket =>
        if ctx.rol = some ("operador_sucursal") ∧ ctx.id ≠ some ticket.usuario_creador_id then
          (db, .err 403 ("No tiene permisos para operar sobre adjuntos de este ticket"))
        else if ESTADOS_EDITABLES.contains ticket.estado = false then
          (db, .err 400 ("Los adjuntos solo pueden modificarse si el ticket está en estado editable"))
        else
          let r := adjuntarYFinalizar db ctx ticketId ticket files body
          (r.1, .ok r.2)

/-! ## Notification controller (src/Controllers/Tickets/CTS_TB_Notificaciones.js) -/

/-- Valid notification channels, CANALES_VALIDOS. -/
def CANALES_VALIDOS : List String :=
  [("interno"), ("email"), ("whatsapp"), ("otro")]

/-- Request body of POST /notificaciones. -/
structure CrearNotifReq where
  ticket_id : Option Nat
  usuario_destino_id : Option Nat
  canal : Option String
  asunto : String
  mensaje : String
  usuario_origen_id : Option Nat
deriving Repr, DecidableEq

/-- Translation of CR_Notificacion_CTS (POST /notificaciones): validates the
destination user, subject, message and optional ticket, defaults the channel
to interno, and creates the row with estado_envio pendiente and null
fecha_envio / fecha_lectura. -/
def CR_Notificacion_CTS (db : DB) (ctx : UserCtx) (req : CrearNotifReq) :
    DB × ApiResult Notificacion :=
  match req.usuario_destino_id with
  | none => (db, .err 400 ("El campo usuario_destino_id es obligatorio"))
  | some destinoId =>
    if req.asunto = "" ∨ req.mensaje = "" then
      (db, .err 400 ("Los campos asunto y mensaje son obligatorios"))
    else if db.usuarios.any (fun u => u.id == destinoId) = false then
      (db, .err 400 ("El usuario destino no existe"))
    else
      match req.ticket_id with
      | some tid =>
        if db.tickets.any (fun t => t.id == tid) = false then
          (db, .err 400 ("No existe el ticket indicado"))
        else
          let canalFinal :=
            match req.canal with
            | some c => if CANALES_VALIDOS.contains c then c else ("interno")
            | none => ("interno")
          let nueva : Notificacion :=
            { id := db.nextId
              ticket_id := some tid
              usuario_origen_id :=
                match req.usuario_origen_id with
                | some o => some o
                | none => ctx.id
              usuario_destino_id := destinoId
              canal := canalFinal
              asunto := req.asunto.trim
              mensaje := req.mensaje
              estado_envio := ("pendiente")
              fecha_envio := none
              fecha_lectura := none }
          ({ db with notificaciones := db.notificaciones ++ [nueva], nextId := db.nextId + 1 },
           .ok nueva)
      | none =>
        let canalFinal :=
          match req.canal with
          | some c => if CANALES_VALIDOS.contains c then c else ("interno")
          | none => ("interno")
        let nueva : Notificacion :=
          { id := db.nextId
            ticket_id := none
            usuario_origen_id :=
              match req.usuario_origen_id with
              | some o => some o
              | none => ctx.id
            usuario_destino_id := destinoId
            canal := canalFinal
            asunto := req.asunto.trim
            mensaje := req.mensaje
            estado_envio := ("pendiente")
            fecha_envio := none
            fecha_lectura := none }
        ({ db with notificaciones := db.notificaciones ++ [nueva], nextId := db.nextId + 1 },
         .ok nueva)

/-- Read-timestamp update of one notification row. -/
def updateNotifLectura (db : DB) (notifId : Nat) (now : Nat) : DB :=
  { db with
      notificaciones := db.notificaciones.map (fun n =>
        if n.id == notifId then { n with fecha_lectura := some now } else n) }

/-- Translation of UR_Notificacion_MarcarLeida_CTS (POST
/notificaciones/:id/marcar-leida): only the destination user may mark the
notification read; an already-read notification is answered OK without any
update; otherwise fecha_lectura is stamped once. -/
def UR_Notificacion_MarcarLeida_CTS (now : Nat) (db : DB) (ctx : UserCtx)
    (notifId : Nat) : DB × ApiResult Notificacion :=
  match db.notificaciones.find? (fun n => n.id == notifId) with
  | none => (db, .err 404 ("Notificación no encontrada"))
  | some notif =>
    if ctx.id ≠ some notif.usuario_destino_id then
      (db, .err 403 ("Solo el usuario destino puede marcar esta notificación como leída"))
    else
      match notif.fecha_lectura with
      | some _ => (db, .ok notif)
      | none =>
        (updateNotifLectura db notifId now,
         .ok { notif with fecha_lectura := some now })

/-! ## Concrete fixtures used by witnesses and counterexamples -/

/-- Branch number 1 of the examples. -/
def sucursal1 : Sucursal :=
  { id := 1, nombre := ("SAN MIGUEL"), ciudad := some ("San Miguel") }

/-- Branch number 2 of the examples. -/
def sucursal2 : Sucursal :=
  { id := 2, nombre := ("CENTRO"), ciudad := none }

/-- Branch operator of the examples, creator of the sample tickets. -/
def uOperador : Usuario :=
  { id := 1, nombre := ("Opera Dora"), email := some ("op@conectate.com")
    rol := ("operador_sucursal"), estado := ("activo"), sucursal_id := some 1 }

/-- Active supervisor of branch 1. -/
def uSupervisor : Usuario :=
  { id := 2, nombre := ("Super Visor"), email := some ("sup@conectate.com")
    rol := ("supervisor"), estado := ("activo"), sucursal_id := some 1 }

/-- Active supervisor bound to branch 2, used to exhibit the branch-blind
fan-out. -/
def uSupervisorOtraSucursal : Usuario :=
  { id := 3, nombre := ("Otra Sucursal"), email := some ("otra@conectate.com")
    rol := ("supervisor"), estado := ("activo"), sucursal_id := some 2 }

/-- Active supervisor without email address. -/
def uSupervisorSinEmail : Usuario :=
  { id := 4, nombre := ("Sin Email"), email := none
    rol := ("supervisor"), estado := ("activo"), sucursal_id := some 1 }

/-- Sample ticket of branch 1 created by the operator, in state pendiente. -/
def ticketEj : Ticket :=
  { id := 7, fecha_ticket := ("2025-11-21"), hora_ticket := none
    sucursal_id := 1, usuario_creador_id := 1, estado := ("pendiente")
    asunto := ("Caja no cierra"), descripcion := none
    observaciones_supervisor := none, fecha_cierre := none, created_at := 100 }

/-- Sample ticket waiting for its first attachment. -/
def ticketBorrador : Ticket :=
  { ticketEj with id := 8, estado := ("pendiente_adjuntos") }

/-- Closed sample ticket. -/
def ticketCerrado : Ticket :=
  { ticketEj with id := 9, estado := ("cerrado") }

/-- Identity context of the operator. -/
def ctxOperador : UserCtx :=
  { id := some 1, rol := some ("operador_sucursal"), sucursal_id := some 1 }

/-- Identity context of the supervisor. -/
def ctxSupervisor : UserCtx :=
  { id := some 2, rol := some ("supervisor"), sucursal_id := some 1 }

/-- Base database of the examples. -/
def dbEj : DB :=
  { usuarios := [uOperador, uSupervisor]
    sucursales := [sucursal1, sucursal2]
    tickets := [ticketEj, ticketBorrador, ticketCerrado]
    historial := []
    adjuntos := []
    notificaciones := []
    nextId := 20 }

/-! ## Claim C7: tiered recipient resolver -/

/-- C7: for every branch id, obtenerDestinatariosSupervisionPorSucursal
returns the first non-empty tier in the order branch supervisors, global
supervisors, active admins, and returns the empty list (without raising)
exactly when all three tiers are empty. -/
theorem obtenerDestinatariosSupervision_tiers (db : DB) (sid : Nat) :
    obtenerDestinatariosSupervisionPorSucursal db sid =
      (if supervisoresDeSucursal db sid ≠ [] then supervisoresDeSucursal db sid
       else if supervisoresGlobales db ≠ [] then supervisoresGlobales db
       else adminsActivos db) ∧
    (obtenerDestinatariosSupervisionPorSucursal db sid = [] ↔
      supervisoresDeSucursal db sid = [] ∧ supervisoresGlobales db = [] ∧
        adminsActivos db = []) := by
  unfold obtenerDestinatariosSupervisionPorSucursal
  by_cases h1 : supervisoresDeSucursal db sid = []
  · by_cases h2 : supervisoresGlobales db = []
    · simp [h1, h2]
    · have hl2 : 0 < (supervisoresGlobales db).length := List.length_pos.mpr h2
      simp [h1, h2, hl2]
  · have hl1 : 0 < (supervisoresDeSucursal db sid).length := List.length_pos.mpr h1
    simp [h1, hl1]

/-! ## Claim C10: email worker with nothing to do -/

/-- C10: when the ticket does not exist, or it has no pending email-channel
notifications, enviarEmailsPorTicketCreado returns normally and changes no
state. -/
theorem enviarEmails_sinTrabajo (sendOk : Nat → Bool) (now : Nat) (db : DB)
    (ticketId : Nat)
    (h : db.tickets.find? (fun t => t.id == ticketId) = none ∨
      notifsEmailPendientes db ticketId = []) :
    enviarEmailsPorTicketCreado sendOk now db ticketId = db := by
  unfold enviarEmailsPorTicketCreado
  rcases h with h | h
  · rw [h]
  · cases hf : db.tickets.find? (fun t => t.id == ticketId) with
    | none => rfl
    | some t => rw [h]; rfl

/-- Witness for C10 at a ticket id absent from the example database. -/
theorem enviarEmails_sinTrabajo_witness :
    enviarEmailsPorTicketCreado (fun _ => true) 5 dbEj 999 = dbEj :=
  enviarEmails_sinTrabajo (fun _ => true) 5 dbEj 999 (Or.inl (by decide))

/-! ## Claim C4: state-change conflicts -/

/-- C4: a state change requested by a supervisor or admin where the
requested state equals the current one, or the ticket is already cerrado,
fails with a 400-class error and leaves the whole database (ticket row,
history, notifications) unchanged. -/
theorem cambiarEstado_conflicto (now : Nat) (db : DB) (ctx : UserCtx)
    (ticketId : Nat) (req : CambiarEstadoReq) (t : Ticket)
    (hrol : ctx.rol = some ("supervisor") ∨ ctx.rol = some ("admin"))
    (ht : db.tickets.find? (fun x => x.id == ticketId) = some t)
    (hconf : normalizarEstado req.nuevo_estado = t.estado ∨ t.estado = ("cerrado")) :
    (CR_Ticket_CambiarEstado_CTS now db ctx ticketId req).2.statusCode = some 400 ∧
    (CR_Ticket_CambiarEstado_CTS now db ctx ticketId req).1 = db := by
  unfold CR_Ticket_CambiarEstado_CTS
  by_cases hv : normalizarEstado req.nuevo_estado = "" ∨
      ESTADOS_VALIDOS.contains (normalizarEstado req.nuevo_estado) = false
  · rw [if_pos hv]
    exact ⟨rfl, rfl⟩
  · simp only [if_neg hv, ht]
    rw [if_neg (not_not_intro hrol)]
    by_cases hnoop : t.estado = normalizarEstado req.nuevo_estado
    · rw [if_pos hnoop]
      exact ⟨rfl, rfl⟩
    · have hcer : t.estado = ("cerrado") := by
        rcases hconf with h | h
        · exact absurd h.symm hnoop
        · exact h
      rw [if_neg hnoop, if_pos hcer]
      exact ⟨rfl, rfl⟩

/-- No-op state change request used by the C4 witness. -/
def reqNoopPendiente : CambiarEstadoReq :=
  { nuevo_estado := ("pendiente"), comentario := none }

/-- Witness for C4: the supervisor requests pendiente on the ticket already
in pendiente. -/
theorem cambiarEstado_conflicto_witness :
    (CR_Ticket_CambiarEstado_CTS 10 dbEj ctxSupervisor 7 reqNoopPendiente).2.statusCode = some 400 ∧
    (CR_Ticket_CambiarEstado_CTS 10 dbEj ctxSupervisor 7 reqNoopPendiente).1 = dbEj :=
  cambiarEstado_conflicto 10 dbEj ctxSupervisor 7 reqNoopPendiente ticketEj
    (Or.inl rfl) (by decide) (Or.inl (by decide))

/-! ## Claims C5 and C2: ticket creation -/

/-- Projections of the fan-out are limited to the notification table: every
other table survives crearNotificacionesPorTicketCreado unchanged. -/
theorem crearNotifs_solo_notificaciones (db : DB) (t : Ticket) :
    (crearNotificacionesPorTicketCreado db t).1.tickets = db.tickets ∧
    (crearNotificacionesPorTicketCreado db t).1.historial = db.historial ∧
    (crearNotificacionesPorTicketCreado db t).1.adjuntos = db.adjuntos ∧
    (crearNotificacionesPorTicketCreado db t).1.usuarios = db.usuarios ∧
    (crearNotificacionesPorTicketCreado db t).1.sucursales = db.sucursales ∧
    (crearNotificacionesPorTicketCreado db t).1.notificaciones =
      db.notificaciones ++ fanOutNotifs db.usuarios db.sucursales t db.nextId :=
  ⟨rfl, rfl, rfl, rfl, rfl, rfl⟩

/-- C5: a Create call with a business date, a subject, a resolvable branch
and an authenticated creator succeeds, inserts exactly one ticket row with
state pendiente and exactly one synthetic first history entry
(null to pendiente), and returns the created ticket. -/
theorem crTicket_exito (now : Nat) (db : DB) (ctx : UserCtx)
    (req : CreateTicketReq) (sid uid : Nat)
    (hf : req.fecha_ticket ≠ "")
    (ha : req.asunto ≠ "")
    (hsuc : sucursalResuelta db ctx req = some sid)
    (huid : ctx.id = some uid) :
    (CR_Ticket_CTS false now db ctx req).2 = ApiResult.ok (nuevoTicket now db req sid uid) ∧
    (nuevoTicket now db req sid uid).estado = ("pendiente") ∧
    (CR_Ticket_CTS false now db ctx req).1.tickets =
      db.tickets ++ [nuevoTicket now db req sid uid] ∧
    (CR_Ticket_CTS false now db ctx req).1.historial =
      db.historial ++ [histPrimerEstado (nuevoTicket now db req sid uid).id uid] := by
  have hv : ¬(req.fecha_ticket = "" ∨ req.asunto = "") := by
    intro h; rcases h with h | h
    · exact hf h
    · exact ha h
  unfold CR_Ticket_CTS
  rw [if_neg hv]
  unfold sucursalResuelta at hsuc
  cases hreq : req.sucursal_id with
  | some s =>
    rw [hreq] at hsuc
    dsimp only at hsuc ⊢
    by_cases hany : db.sucursales.any (fun x => x.id == s) = true
    · have hs : s = sid := by
        rw [if_pos hany] at hsuc
        exact Option.some_injective _ hsuc
      subst hs
      rw [if_pos hany]
      unfold crTicketConSucursal
      rw [huid]
      exact ⟨rfl, rfl, rfl, rfl⟩
    · rw [if_neg hany] at hsuc
      exact absurd hsuc (by simp)
  | none =>
    rw [hreq] at hsuc
    dsimp only at hsuc ⊢
    rw [hsuc]
    unfold crTicketConSucursal
    rw [huid]
    exact ⟨rfl, rfl, rfl, rfl⟩

/-- Creation request used by the creation witnesses (branch resolved from
the operator's context). -/
def reqCreacionEj : CreateTicketReq :=
  { fecha_ticket := ("2025-11-21"), hora_ticket := none, sucursal_id := none
    asunto := ("Caja no cierra"), descripcion := none }

/-- Witness for C5: the operator creates a ticket in the example database. -/
theorem crTicket_exito_witness :
    (CR_Ticket_CTS false 50 dbEj ctxOperador reqCreacionEj).2 =
      ApiResult.ok (nuevoTicket 50 dbEj reqCreacionEj 1 1) ∧
    (nuevoTicket 50 dbEj reqCreacionEj 1 1).estado = ("pendiente") ∧
    (CR_Ticket_CTS false 50 dbEj ctxOperador reqCreacionEj).1.tickets =
      dbEj.tickets ++ [nuevoTicket 50 dbEj reqCreacionEj 1 1] ∧
    (CR_Ticket_CTS false 50 dbEj ctxOperador reqCreacionEj).1.historial =
      dbEj.historial ++ [histPrimerEstado (nuevoTicket 50 dbEj reqCreacionEj 1 1).id 1] :=
  crTicket_exito 50 dbEj ctxOperador reqCreacionEj 1 1 (by decide) (by decide)
    (by decide) rfl

/-- Counterexample to C2 as stated: with the example database and request,
an error raised inside crearNotificacionesPorTicketCreado is not swallowed —
the transaction is rolled back (no ticket row persists) and the caller
observes a failure instead of the created ticket. -/
theorem crTicket_fanOutTragado_refutado :
    (CR_Ticket_CTS true 50 dbEj ctxOperador reqCreacionEj).1.tickets = dbEj.tickets ∧
    (CR_Ticket_CTS true 50 dbEj ctxOperador reqCreacionEj).2.isOk = false :=
  ⟨rfl, rfl⟩

/-- C2 amended: an error raised inside crearNotificacionesPorTicketCreado
during CR_Ticket_CTS propagates to the controller's catch handler: the
transaction is rolled back (the database, including the inserted ticket row
and history entry, reverts) and the caller observes a 500 failure, not the
created ticket. -/
theorem crTicket_fanOutFalla_rollback (now : Nat) (db : DB) (ctx : UserCtx)
    (req : CreateTicketReq) (sid uid : Nat)
    (hf : req.fecha_ticket ≠ "")
    (ha : req.asunto ≠ "")
    (hsuc : sucursalResuelta db ctx req = some sid)
    (huid : ctx.id = some uid) :
    (CR_Ticket_CTS true now db ctx req).1 = db ∧
    (CR_Ticket_CTS true now db ctx req).2.statusCode = some 500 := by
  have hv : ¬(req.fecha_ticket = "" ∨ req.asunto = "") := by
    intro h; rcases h with h | h
    · exact hf h
    · exact ha h
  unfold CR_Ticket_CTS
  rw [if_neg hv]
  unfold sucursalResuelta at hsuc
  cases hreq : req.sucursal_id with
  | some s =>
    rw [hreq] at hsuc
    dsimp only at hsuc ⊢
    by_cases hany : db.sucursales.any (fun x => x.id == s) = true
    · rw [if_pos hany]
      unfold crTicketConSucursal
      rw [huid]
      exact ⟨rfl, rfl⟩
    · rw [if_neg hany] at hsuc
      exact absurd hsuc (by simp)
  | none =>
    rw [hreq] at hsuc
    dsimp only at hsuc ⊢
    rw [hsuc]
    unfold crTicketConSucursal
    rw [huid]
    exact ⟨rfl, rfl⟩

/-- Witness for the amended C2 at the example database. -/
theorem crTicket_fanOutFalla_rollback_witness :
    (CR_Ticket_CTS true 50 dbEj ctxOperador reqCreacionEj).1 = dbEj ∧
    (CR_Ticket_CTS true 50 dbEj ctxOperador reqCreacionEj).2.statusCode = some 500 :=
  crTicket_fanOutFalla_rollback 50 dbEj ctxOperador reqCreacionEj 1 1
    (by decide) (by decide) (by decide) rfl

/-! ## Claim C9: internal notifications and the read timestamp -/

/-- Manual notification request on the interno channel, used to refute the
claim that every interno notification is born enviado. -/
def reqNotifInterna : CrearNotifReq :=
  { ticket_id := none, usuario_destino_id := some 2, canal := some ("interno")
    asunto := ("Aviso"), mensaje := ("Hola"), usuario_origen_id := none }

/-- Counterexample to C9 as stated: the manual endpoint CR_Notificacion_CTS,
asked for an interno notification, persists it with delivery state
pendiente, not enviado. -/
theorem notifInterna_enviado_refutado :
    (CR_Notificacion_CTS dbEj ctxOperador reqNotifInterna).1.notificaciones.map
        (fun n => (n.canal, n.estado_envio)) =
      [(("interno"), ("pendiente"))] := by
  rfl

/-- Every notification row produced by one fan-out loop is either interno
with state enviado or email with state pendiente, is destined to one of the
loop's recipients, refers to the ticket, and is born unread. -/
theorem mem_crearNotifsLoop (t : Ticket) (op : Option Usuario)
    (suc : Option Sucursal) (a : String) :
    ∀ (dests : List Usuario) (nid : Nat) (n : Notificacion),
      n ∈ crearNotifsLoop t op suc a dests nid →
      ((n.canal = ("interno") ∧ n.estado_envio = ("enviado")) ∨
        (n.canal = ("email") ∧ n.estado_envio = ("pendiente"))) ∧
      n.fecha_lectura = none ∧ n.ticket_id = some t.id ∧
      ∃ d ∈ dests, n.usuario_destino_id = d.id := by
  intro dests
  induction dests with
  | nil => intro nid n hn; exact absurd hn (by simp [crearNotifsLoop])
  | cons d ds ih =>
    intro nid n hn
    rw [crearNotifsLoop] at hn
    simp only [List.mem_cons] at hn
    rcases hn with hn | hn | hn
    · subst hn
      exact ⟨Or.inl ⟨rfl, rfl⟩, rfl, rfl, d, by simp, rfl⟩
    · subst hn
      exact ⟨Or.inr ⟨rfl, rfl⟩, rfl, rfl, d, by simp, rfl⟩
    · obtain ⟨h1, h2, h3, d2, hd2, h4⟩ := ih (nid + 2) n hn
      exact ⟨h1, h2, h3, d2, by simp [hd2], h4⟩

/-- Updating the delivery fields of one notification never touches any
row's read timestamp. -/
theorem updateNotifEnvio_map_lectura (db : DB) (i : Nat) (e : String) (t : Nat) :
    (updateNotifEnvio db i e t).notificaciones.map (fun n => n.fecha_lectura) =
      db.notificaciones.map (fun n => n.fecha_lectura) := by
  unfold updateNotifEnvio
  rw [List.map_map]
  apply List.map_congr_left
  intro n _
  by_cases h : n.id = i <;> simp [h]

/-- The email worker's fold never touches any row's read timestamp. -/
theorem foldl_procesar_map_lectura (sendOk : Nat → Bool) (tnow : Nat) :
    ∀ (l : List Notificacion) (db : DB),
      (l.foldl (procesarNotifEmail sendOk tnow) db).notificaciones.map
          (fun n => n.fecha_lectura) =
        db.notificaciones.map (fun n => n.fecha_lectura) := by
  intro l
  induction l with
  | nil => intro db; rfl
  | cons a l ih =>
    intro db
    rw [List.foldl_cons, ih]
    exact updateNotifEnvio_map_lectura db a.id _ tnow

/-- enviarEmailsPorTicketCreado never touches any row's read timestamp. -/
theorem enviarEmails_map_lectura (sendOk : Nat → Bool) (tnow : Nat) (db : DB)
    (ticketId : Nat) :
    (enviarEmailsPorTicketCreado sendOk tnow db ticketId).notificaciones.map
        (fun n => n.fecha_lectura) =
      db.notificaciones.map (fun n => n.fecha_lectura) := by
  unfold enviarEmailsPorTicketCreado
  cases db.tickets.find? (fun t => t.id == ticketId) with
  | none => rfl
  | some t => exact foldl_procesar_map_lectura sendOk tnow _ db

/-- C9 amended: interno notifications created by the ticket fan-out are
born enviado and unread, while the manual endpoint CR_Notificacion_CTS
creates its rows (interno included) with state pendiente and unread; the
read timestamp is set at most once and only through
UR_Notificacion_MarcarLeida_CTS called by the destination user — any other
caller gets a 403 with nothing changed, an already-read notification keeps
its original timestamp, and the email worker never alters read
timestamps. -/
theorem notificacionInterna_lectura_unica (db : DB) (notif : Notificacion)
    (notifId : Nat) (ctx : UserCtx) (now : Nat)
    (hn : db.notificaciones.find? (fun n => n.id == notifId) = some notif) :
    (∀ t : Ticket, ∀ n ∈ (crearNotificacionesPorTicketCreado db t).2.notifsCreadas,
        (n.canal = ("interno") → n.estado_envio = ("enviado")) ∧
        n.fecha_lectura = none) ∧
    (∀ (ctx2 : UserCtx) (req2 : CrearNotifReq) (n2 : Notificacion),
        (CR_Notificacion_CTS db ctx2 req2).2 = ApiResult.ok n2 →
        n2.estado_envio = ("pendiente") ∧ n2.fecha_lectura = none) ∧
    (ctx.id ≠ some notif.usuario_destino_id →
        (UR_Notificacion_MarcarLeida_CTS now db ctx notifId).1 = db ∧
        (UR_Notificacion_MarcarLeida_CTS now db ctx notifId).2.statusCode = some 403) ∧
    (notif.fecha_lectura.isSome = true →
        (UR_Notificacion_MarcarLeida_CTS now db ctx notifId).1 = db) ∧
    (notif.fecha_lectura = none → ctx.id = some notif.usuario_destino_id →
        (UR_Notificacion_MarcarLeida_CTS now db ctx notifId).1 =
          updateNotifLectura db notifId now ∧
        (UR_Notificacion_MarcarLeida_CTS now db ctx notifId).2 =
          ApiResult.ok { notif with fecha_lectura := some now }) ∧
    (∀ (sendOk : Nat → Bool) (tnow ticketId : Nat),
        (enviarEmailsPorTicketCreado sendOk tnow db ticketId).notificaciones.map
            (fun n => n.fecha_lectura) =
          db.notificaciones.map (fun n => n.fecha_lectura)) := by
  refine ⟨?_, ?_, ?_, ?_, ?_, ?_⟩
  · intro t n hmem
    obtain ⟨h1, h2, _, _⟩ := mem_crearNotifsLoop t _ _ _ _ _ n hmem
    refine ⟨?_, h2⟩
    intro hint
    rcases h1 with ⟨_, h⟩ | ⟨hc, _⟩
    · exact h
    · rw [hint] at hc; exact absurd hc (by decide)
  · intro ctx2 req2 n2 h
    unfold CR_Notificacion_CTS at h
    repeat' split at h
    all_goals dsimp only at h
    all_goals first
      | (injection h with h2; subst h2; exact ⟨rfl, rfl⟩)
      | exact ApiResult.noConfusion h
  · intro hne
    unfold UR_Notificacion_MarcarLeida_CTS
    rw [hn]
    dsimp only
    rw [if_pos hne]
    exact ⟨rfl, rfl⟩
  · intro hleida
    unfold UR_Notificacion_MarcarLeida_CTS
    rw [hn]
    dsimp only
    by_cases hid : ctx.id ≠ some notif.usuario_destino_id
    · rw [if_pos hid]
    · rw [if_neg hid]
      cases hfl : notif.fecha_lectura with
      | some ts => rfl
      | none => rw [hfl] at hleida; exact absurd hleida (by decide)
  · intro hfl hid
    unfold UR_Notificacion_MarcarLeida_CTS
    rw [hn]
    dsimp only
    rw [if_neg (not_not_intro hid), hfl]
    exact ⟨rfl, rfl⟩
  · intro sendOk tnow ticketId
    exact enviarEmails_map_lectura sendOk tnow db ticketId

/-- Unread interno notification of the example database. -/
def notifEj : Notificacion :=
  { id := 30, ticket_id := some 7, usuario_origen_id := some 1
    usuario_destino_id := 2, canal := ("interno"), asunto := ("A")
    mensaje := ("M"), estado_envio := ("enviado"), fecha_envio := none
    fecha_lectura := none }

/-- Example database with one stored notification. -/
def dbNotif : DB :=
  { dbEj with notificaciones := [notifEj], nextId := 31 }

/-- Witness for the amended C9 at the example notification. -/
theorem notificacionInterna_lectura_unica_witness :
    (∀ t : Ticket, ∀ n ∈ (crearNotificacionesPorTicketCreado dbNotif t).2.notifsCreadas,
        (n.canal = ("interno") → n.estado_envio = ("enviado")) ∧
        n.fecha_lectura = none) ∧
    (∀ (ctx2 : UserCtx) (req2 : CrearNotifReq) (n2 : Notificacion),
        (CR_Notificacion_CTS dbNotif ctx2 req2).2 = ApiResult.ok n2 →
        n2.estado_envio = ("pendiente") ∧ n2.fecha_lectura = none) ∧
    (ctxSupervisor.id ≠ some notifEj.usuario_destino_id →
        (UR_Notificacion_MarcarLeida_CTS 77 dbNotif ctxSupervisor 30).1 = dbNotif ∧
        (UR_Notificacion_MarcarLeida_CTS 77 dbNotif ctxSupervisor 30).2.statusCode = some 403) ∧
    (notifEj.fecha_lectura.isSome = true →
        (UR_Notificacion_MarcarLeida_CTS 77 dbNotif ctxSupervisor 30).1 = dbNotif) ∧
    (notifEj.fecha_lectura = none → ctxSupervisor.id = some notifEj.usuario_destino_id →
        (UR_Notificacion_MarcarLeida_CTS 77 dbNotif ctxSupervisor 30).1 =
          updateNotifLectura dbNotif 30 77 ∧
        (UR_Notificacion_MarcarLeida_CTS 77 dbNotif ctxSupervisor 30).2 =
          ApiResult.ok { notifEj with fecha_lectura := some 77 }) ∧
    (∀ (sendOk : Nat → Bool) (tnow ticketId : Nat),
        (enviarEmailsPorTicketCreado sendOk tnow dbNotif ticketId).notificaciones.map
            (fun n => n.fecha_lectura) =
          dbNotif.notificaciones.map (fun n => n.fecha_lectura)) :=
  notificacionInterna_lectura_unica dbNotif notifEj 30 ctxSupervisor 77 (by decide)

/-! ## Claim C6: email delivery worker -/

/-- find? by id commutes with an id-preserving map. -/
theorem find?_map_notif (g : Notificacion → Notificacion)
    (hid : ∀ x, (g x).id = x.id) (l : List Notificacion) (i : Nat) :
    (l.map g).find? (fun x => x.id == i) =
      (l.find? (fun x => x.id == i)).map g := by
  induction l with
  | nil => rfl
  | cons a l ih =>
    by_cases h : a.id = i
    · rw [List.map_cons, List.find?_cons_of_pos _ (by simp [hid, h]),
        List.find?_cons_of_pos _ (by simp [h])]
      rfl
    · rw [List.map_cons, List.find?_cons_of_neg _ (by simp [hid, h]),
        List.find?_cons_of_neg _ (by simp [h])]
      exact ih

/-- The delivery-field update rewrites exactly the row with the given id. -/
theorem updateNotifEnvio_find_self (db : DB) (m : Notificacion) (e : String)
    (now : Nat)
    (hm : db.notificaciones.find? (fun x => x.id == m.id) = some m) :
    (updateNotifEnvio db m.id e now).notificaciones.find? (fun x => x.id == m.id) =
      some { m with estado_envio := e, fecha_envio := some now } := by
  unfold updateNotifEnvio
  rw [find?_map_notif _ (by intro x; by_cases h : x.id = m.id <;> simp [h]), hm]
  simp

/-- The delivery-field update leaves every other row's lookup unchanged. -/
theorem updateNotifEnvio_find_other (db : DB) (i k : Nat) (e : String)
    (now : Nat) (hk : k ≠ i) :
    (updateNotifEnvio db i e now).notificaciones.find? (fun x => x.id == k) =
      db.notificaciones.find? (fun x => x.id == k) := by
  unfold updateNotifEnvio
  rw [find?_map_notif _ (by intro x; by_cases h : x.id = i <;> simp [h])]
  cases hf : db.notificaciones.find? (fun x => x.id == k) with
  | none => rfl
  | some x =>
    have hx : x.id = k := by
      have := List.find?_some hf
      simpa using this
    have : ¬(x.id = i) := by rw [hx]; exact hk
    simp [this]

/-- The email worker's fold leaves the lookup of every id outside the
processed batch unchanged. -/
theorem foldl_procesar_find_other (sendOk : Nat → Bool) (now : Nat) :
    ∀ (l : List Notificacion) (db : DB) (k : Nat), (∀ m ∈ l, m.id ≠ k) →
      (l.foldl (procesarNotifEmail sendOk now) db).notificaciones.find?
          (fun x => x.id == k) =
        db.notificaciones.find? (fun x => x.id == k) := by
  intro l
  induction l with
  | nil => intro db k _; rfl
  | cons a l ih =>
    intro db k hk
    rw [List.foldl_cons, ih _ _ (fun m hm => hk m (by simp [hm]))]
    exact updateNotifEnvio_find_other db a.id k _ now
      (fun h => hk a (by simp) h.symm)

/-- The email worker's fold never changes the usuarios table. -/
theorem foldl_procesar_usuarios (sendOk : Nat → Bool) (now : Nat) :
    ∀ (l : List Notificacion) (db : DB),
      (l.foldl (procesarNotifEmail sendOk now) db).usuarios = db.usuarios := by
  intro l
  induction l with
  | nil => intro db; rfl
  | cons a l ih => intro db; rw [List.foldl_cons, ih]; rfl

/-- With unique ids and every batch row present in the table, the fold
leaves each batch row at its claimed final value: estado given by
desenlaceEnvio over the (unchanged) usuarios table, fecha_envio stamped. -/
theorem foldl_procesar_resultado (sendOk : Nat → Bool) (now : Nat)
    (U : List Usuario) :
    ∀ (l : List Notificacion) (db : DB),
      db.usuarios = U →
      (l.map (fun x => x.id)).Nodup →
      (∀ m ∈ l, db.notificaciones.find? (fun x => x.id == m.id) = some m) →
      ∀ n ∈ l,
        (l.foldl (procesarNotifEmail sendOk now) db).notificaciones.find?
            (fun x => x.id == n.id) =
          some { n with estado_envio := desenlaceEnvio sendOk U n
                        fecha_envio := some now } := by
  intro l
  induction l with
  | nil => intro db _ _ _ n hn; exact absurd hn (by simp)
  | cons a l ih =>
    intro db hU hnd hmem n hn
    rw [List.foldl_cons]
    have hndl : (l.map (fun x => x.id)).Nodup := by
      simpa using hnd.of_cons
    have hanotin : a.id ∉ l.map (fun x => x.id) := by
      have := hnd
      simp only [List.map_cons, List.nodup_cons] at this
      exact this.1
    have hstep : procesarNotifEmail sendOk now db a =
        updateNotifEnvio db a.id (desenlaceEnvio sendOk U a) now := by
      unfold procesarNotifEmail
      rw [hU]
    rcases List.mem_cons.mp hn with hna | hnl
    · subst hna
      rw [hstep]
      rw [foldl_procesar_find_other sendOk now l _ n.id ?_]
      · exact updateNotifEnvio_find_self db n _ now (hmem n (by simp))
      · intro m hm hmeq
        exact hanotin (by rw [← hmeq]; exact List.mem_map_of_mem _ hm)
    · rw [hstep]
      refine ih (updateNotifEnvio db a.id (desenlaceEnvio sendOk U a) now)
        (by rw [← hU]; rfl) hndl ?_ n hnl
      intro m hm
      rw [updateNotifEnvio_find_other db a.id m.id _ now ?_]
      · exact hmem m (by simp [hm])
      · intro hmeq
        exact hanotin (by rw [← hmeq]; exact List.mem_map_of_mem _ hm)

/-- With unique ids, the by-id lookup of a member of the table returns that
member. -/
theorem find?_id_of_nodup :
    ∀ (l : List Notificacion), ((l.map (fun x => x.id)).Nodup) →
      ∀ m ∈ l, l.find? (fun x => x.id == m.id) = some m := by
  intro l
  induction l with
  | nil => intro _ m hm; exact absurd hm (by simp)
  | cons a l ih =>
    intro hnd m hm
    rcases List.mem_cons.mp hm with hma | hml
    · subst hma
      exact List.find?_cons_of_pos _ (by simp)
    · have hane : ¬(a.id = m.id) := by
        intro h
        have : a.id ∉ l.map (fun x => x.id) := by
          simp only [List.map_cons, List.nodup_cons] at hnd
          exact hnd.1
        exact this (by rw [h]; exact List.mem_map_of_mem _ hml)
      rw [List.find?_cons_of_neg _ (by simp [hane])]
      exact ih (by simpa using hnd.of_cons) m hml

/-- C6: for every pending email notification of an existing ticket, one run
of the email worker leaves that notification marked according to its own
outcome — error with fecha_envio stamped when the destination user is
missing or has no usable email, enviado with fecha_envio stamped when the
transport send succeeds, error with fecha_envio stamped when the transport
send raises — independently of the outcome of every other notification in
the batch (failures are caught per-notification and never escape: the
worker is a total function of the transport oracle). -/
theorem enviarEmails_porNotificacion (sendOk : Nat → Bool) (now : Nat)
    (db : DB) (ticketId : Nat) (t : Ticket) (n : Notificacion)
    (ht : db.tickets.find? (fun x => x.id == ticketId) = some t)
    (hids : (db.notificaciones.map (fun x => x.id)).Nodup)
    (hn : n ∈ notifsEmailPendientes db ticketId) :
    (db.usuarios.find? (fun u => u.id == n.usuario_destino_id) = none →
      (enviarEmailsPorTicketCreado sendOk now db ticketId).notificaciones.find?
          (fun x => x.id == n.id) =
        some { n with estado_envio := ("error"), fecha_envio := some now }) ∧
    (∀ d, db.usuarios.find? (fun u => u.id == n.usuario_destino_id) = some d →
      usableEmail d = false →
      (enviarEmailsPorTicketCreado sendOk now db ticketId).notificaciones.find?
          (fun x => x.id == n.id) =
        some { n with estado_envio := ("error"), fecha_envio := some now }) ∧
    (∀ d, db.usuarios.find? (fun u => u.id == n.usuario_destino_id) = some d →
      usableEmail d = true → sendOk n.id = true →
      (enviarEmailsPorTicketCreado sendOk now db ticketId).notificaciones.find?
          (fun x => x.id == n.id) =
        some { n with estado_envio := ("enviado"), fecha_envio := some now }) ∧
    (∀ d, db.usuarios.find? (fun u => u.id == n.usuario_destino_id) = some d →
      usableEmail d = true → sendOk n.id = false →
      (enviarEmailsPorTicketCreado sendOk now db ticketId).notificaciones.find?
          (fun x => x.id == n.id) =
        some { n with estado_envio := ("error"), fecha_envio := some now }) := by
  have hpendids : ((notifsEmailPendientes db ticketId).map (fun x => x.id)).Nodup := by
    unfold notifsEmailPendientes
    exact ((List.filter_sublist _).map _).nodup hids
  have hpendmem : ∀ m ∈ notifsEmailPendientes db ticketId,
      db.notificaciones.find? (fun x => x.id == m.id) = some m := by
    intro m hm
    exact find?_id_of_nodup db.notificaciones hids m
      (List.mem_of_mem_filter hm)
  have hmain :
      (enviarEmailsPorTicketCreado sendOk now db ticketId).notificaciones.find?
          (fun x => x.id == n.id) =
        some { n with estado_envio := desenlaceEnvio sendOk db.usuarios n
                      fecha_envio := some now } := by
    unfold enviarEmailsPorTicketCreado
    rw [ht]
    exact foldl_procesar_resultado sendOk now db.usuarios
      (notifsEmailPendientes db ticketId) db rfl hpendids hpendmem n hn
  refine ⟨?_, ?_, ?_, ?_⟩
  · intro hd
    rw [hmain]
    unfold desenlaceEnvio
    rw [hd]
  · intro d hd hmail
    rw [hmain]
    unfold desenlaceEnvio
    rw [hd]
    simp [hmail]
  · intro d hd hmail hsend
    rw [hmain]
    unfold desenlaceEnvio
    rw [hd]
    simp [hmail, hsend]
  · intro d hd hmail hsend
    rw [hmain]
    unfold desenlaceEnvio
    rw [hd]
    simp [hmail, hsend]

/-- First pending email notification of the C6 example. -/
def notifPend1 : Notificacion :=
  { id := 41, ticket_id := some 7, usuario_origen_id := some 1
    usuario_destino_id := 2, canal := ("email"), asunto := ("A")
    mensaje := ("M"), estado_envio := ("pendiente"), fecha_envio := none
    fecha_lectura := none }

/-- Second pending email notification of the C6 example. -/
def notifPend2 : Notificacion :=
  { notifPend1 with id := 42 }

/-- Example database with two pending email notifications for ticket 7. -/
def dbC6 : DB :=
  { dbEj with notificaciones := [notifPend1, notifPend2], nextId := 43 }

/-- Witness for C6: the transport succeeds for notification 41 while it
raises for notification 42 (Scenario E's shape). -/
theorem enviarEmails_porNotificacion_witness :
    (dbC6.usuarios.find? (fun u => u.id == notifPend1.usuario_destino_id) = none →
      (enviarEmailsPorTicketCreado (fun i => i == 41) 9 dbC6 7).notificaciones.find?
          (fun x => x.id == notifPend1.id) =
        some { notifPend1 with estado_envio := ("error"), fecha_envio := some 9 }) ∧
    (∀ d, dbC6.usuarios.find? (fun u => u.id == notifPend1.usuario_destino_id) = some d →
      usableEmail d = false →
      (enviarEmailsPorTicketCreado (fun i => i == 41) 9 dbC6 7).notificaciones.find?
          (fun x => x.id == notifPend1.id) =
        some { notifPend1 with estado_envio := ("error"), fecha_envio := some 9 }) ∧
    (∀ d, dbC6.usuarios.find? (fun u => u.id == notifPend1.usuario_destino_id) = some d →
      usableEmail d = true → (fun (i : Nat) => i == 41) notifPend1.id = true →
      (enviarEmailsPorTicketCreado (fun i => i == 41) 9 dbC6 7).notificaciones.find?
          (fun x => x.id == notifPend1.id) =
        some { notifPend1 with estado_envio := ("enviado"), fecha_envio := some 9 }) ∧
    (∀ d, dbC6.usuarios.find? (fun u => u.id == notifPend1.usuario_destino_id) = some d →
      usableEmail d = true → (fun (i : Nat) => i == 41) notifPend1.id = false →
      (enviarEmailsPorTicketCreado (fun i => i == 41) 9 dbC6 7).notificaciones.find?
          (fun x => x.id == notifPend1.id) =
        some { notifPend1 with estado_envio := ("error"), fecha_envio := some 9 }) :=
  enviarEmails_porNotificacion (fun i => i == 41) 9 dbC6 7 ticketEj notifPend1
    (by decide) (by decide) (by decide)

/-! ## Claim C3: fan-out recipients and notification rows -/

/-- Database exhibiting the branch-blind fan-out: the only supervisor
belongs to branch 2 while the ticket belongs to branch 1. -/
def dbC3 : DB :=
  { dbEj with usuarios := [uOperador, uSupervisorOtraSucursal] }

/-- Counterexample to C3 as stated: for the branch-1 ticket, the fan-out
creates both notification rows for the branch-2 supervisor (user 3), even
though the branch-scoped supervision resolver yields nobody for branch 1 and
user 3 is not the creating operator. -/
theorem fanOut_porSucursal_refutado :
    ((crearNotificacionesPorTicketCreado dbC3 ticketEj).2.notifsCreadas.filter
        (fun n => n.usuario_destino_id == 3)).length = 2 ∧
    obtenerDestinatariosSupervisionPorSucursal dbC3 ticketEj.sucursal_id = [] ∧
    ticketEj.usuario_creador_id ≠ 3 := by
  refine ⟨?_, by decide, by decide⟩
  rfl

/-- Soundness of the recipient filter: every kept user comes from the pool,
has a usable email, and its id was not among the already-traversed ids. -/
theorem mem_filtrarDestinatarios_sound :
    ∀ (arr : List Usuario) (vistos : List Nat) (u : Usuario),
      u ∈ filtrarDestinatarios arr vistos →
      u ∈ arr ∧ usableEmail u = true ∧ vistos.contains u.id = false := by
  intro arr
  induction arr with
  | nil =>
    intro vistos u hu
    exact absurd hu (by simp [filtrarDestinatarios])
  | cons a rest ih =>
    intro vistos u hu
    rw [filtrarDestinatarios] at hu
    by_cases hseen : vistos.contains a.id = true
    · rw [if_pos hseen] at hu
      obtain ⟨h1, h2, h3⟩ := ih vistos u hu
      exact ⟨by simp [h1], h2, h3⟩
    · rw [if_neg hseen] at hu
      by_cases hmail : usableEmail a = true
      · rw [if_pos hmail] at hu
        rcases List.mem_cons.mp hu with hua | hu2
        · subst hua
          exact ⟨by simp, hmail, by simpa using hseen⟩
        · obtain ⟨h1, h2, h3⟩ := ih _ u hu2
          refine ⟨by simp [h1], h2, ?_⟩
          simp only [List.contains_cons, Bool.or_eq_false_iff] at h3
          exact h3.2
      · rw [if_neg hmail] at hu
        obtain ⟨h1, h2, h3⟩ := ih _ u hu
        refine ⟨by simp [h1], h2, ?_⟩
        simp only [List.contains_cons, Bool.or_eq_false_iff] at h3
        exact h3.2

/-- The recipient filter never emits two rows with the same user id. -/
theorem filtrarDestinatarios_ids_nodup :
    ∀ (arr : List Usuario) (vistos : List Nat),
      ((filtrarDestinatarios arr vistos).map (fun u => u.id)).Nodup := by
  intro arr
  induction arr with
  | nil => intro vistos; simp [filtrarDestinatarios]
  | cons a rest ih =>
    intro vistos
    rw [filtrarDestinatarios]
    by_cases hseen : vistos.contains a.id = true
    · rw [if_pos hseen]; exact ih vistos
    · rw [if_neg hseen]
      by_cases hmail : usableEmail a = true
      · rw [if_pos hmail]
        simp only [List.map_cons, List.nodup_cons]
        refine ⟨?_, ih _⟩
        intro hmem
        obtain ⟨u, hu, hid⟩ := List.mem_map.mp hmem
        obtain ⟨_, _, h3⟩ := mem_filtrarDestinatarios_sound rest _ u hu
        simp only [List.contains_cons, Bool.or_eq_false_iff] at h3
        have : (u.id == a.id) = false := h3.1
        simp [hid] at this
      · rw [if_neg hmail]; exact ih _

/-- Completeness of the recipient filter when equal ids imply equal rows
(true of any pool drawn from a table with unique primary keys): a pool
member with usable email and unseen id is kept. -/
theorem mem_filtrarDestinatarios_complete :
    ∀ (arr : List Usuario) (vistos : List Nat) (u : Usuario),
      (∀ a ∈ arr, ∀ b ∈ arr, a.id = b.id → a = b) →
      u ∈ arr → usableEmail u = true → vistos.contains u.id = false →
      u ∈ filtrarDestinatarios arr vistos := by
  intro arr
  induction arr with
  | nil => intro vistos u _ hu; exact absurd hu (by simp)
  | cons a rest ih =>
    intro vistos u hcons hu hmailu hvu
    have hconsrest : ∀ x ∈ rest, ∀ y ∈ rest, x.id = y.id → x = y :=
      fun x hx y hy => hcons x (by simp [hx]) y (by simp [hy])
    rw [filtrarDestinatarios]
    by_cases hseen : vistos.contains a.id = true
    · rw [if_pos hseen]
      rcases List.mem_cons.mp hu with hua | hur
      · subst hua
        rw [hvu] at hseen
        exact absurd hseen (by simp)
      · exact ih vistos u hconsrest hur hmailu hvu
    · rw [if_neg hseen]
      by_cases hmail : usableEmail a = true
      · rw [if_pos hmail]
        rcases List.mem_cons.mp hu with hua | hur
        · subst hua; simp
        · by_cases hid : u.id = a.id
          · have : u = a := hcons u (by simp [hur]) a (by simp) hid
            subst this; simp
          · refine List.mem_cons_of_mem _ (ih _ u hconsrest hur hmailu ?_)
            simp only [List.contains_cons, Bool.or_eq_false_iff]
            exact ⟨by simp [hid], hvu⟩
      · rw [if_neg hmail]
        rcases List.mem_cons.mp hu with hua | hur
        · subst hua; rw [hmailu] at hmail; exact absurd rfl hmail
        · by_cases hid : u.id = a.id
          · have : u = a := hcons u (by simp [hur]) a (by simp) hid
            subst this; rw [hmailu] at hmail; exact absurd rfl hmail
          · refine ih _ u hconsrest hur hmailu ?_
            simp only [List.contains_cons, Bool.or_eq_false_iff]
            exact ⟨by simp [hid], hvu⟩

/-- The candidate pool is drawn from the usuarios table. -/
theorem mem_poolDestinatarios (usuarios : List Usuario) (t : Ticket) :
    ∀ u ∈ poolDestinatarios usuarios t, u ∈ usuarios := by
  intro u hu
  unfold poolDestinatarios at hu
  cases hf : usuarios.find? (fun x => x.id == t.usuario_creador_id) with
  | none =>
    rw [hf] at hu
    dsimp only at hu
    exact List.mem_of_mem_filter hu
  | some o =>
    rw [hf] at hu
    rcases List.mem_append.mp hu with h | h
    · have : u = o := by simpa using h
      subst this
      exact List.mem_of_find?_eq_some hf
    · exact List.mem_of_mem_filter h

/-- Count of rows with a given key is zero when the key is absent. -/
theorem countP_id_zero (l : List Usuario) (uid : Nat)
    (h : uid ∉ l.map (fun u => u.id)) :
    countP l (fun u => u.id == uid) = 0 := by
  induction l with
  | nil => rfl
  | cons a rest ih =>
    simp only [List.map_cons, List.mem_cons] at h
    push_neg at h
    have ha : (a.id == uid) = false := by
      simp
      exact fun he => h.1 he.symm
    unfold countP
    rw [List.filter_cons, ha]
    exact ih h.2

/-- Count of rows with the key of a member is one when keys are unique. -/
theorem countP_id_one :
    ∀ (l : List Usuario) (d : Usuario),
      ((l.map (fun u => u.id)).Nodup) → d ∈ l →
      countP l (fun u => u.id == d.id) = 1 := by
  intro l
  induction l with
  | nil => intro d _ hd; exact absurd hd (by simp)
  | cons a rest ih =>
    intro d hnd hd
    have hnotin : a.id ∉ rest.map (fun u => u.id) := by
      simp only [List.map_cons, List.nodup_cons] at hnd
      exact hnd.1
    rcases List.mem_cons.mp hd with hda | hdr
    · subst hda
      unfold countP
      rw [List.filter_cons]
      simp only [beq_self_eq_true]
      have : countP rest (fun u => u.id == d.id) = 0 := countP_id_zero rest d.id hnotin
      unfold countP at this
      simp [this]
    · have hane : (a.id == d.id) = false := by
        simp
        intro he
        exact hnotin (by rw [he]; exact List.mem_map_of_mem _ hdr)
      unfold countP
      rw [List.filter_cons, hane]
      exact ih d (by simpa using hnd.of_cons) hdr

/-- Per-recipient count of interno/enviado rows produced by the fan-out
loop. -/
theorem crearNotifsLoop_count_interno (t : Ticket) (op : Option Usuario)
    (suc : Option Sucursal) (a : String) :
    ∀ (dests : List Usuario) (nid uid : Nat),
      countP (crearNotifsLoop t op suc a dests nid)
        (fun n => n.usuario_destino_id == uid && n.canal == ("interno") &&
          n.estado_envio == ("enviado")) =
      countP dests (fun d => d.id == uid) := by
  intro dests
  induction dests with
  | nil => intro nid uid; rfl
  | cons d ds ih =>
    intro nid uid
    rw [crearNotifsLoop]
    unfold countP at ih ⊢
    rw [List.filter_cons, List.filter_cons, List.filter_cons]
    by_cases hud : d.id = uid
    · simp [hud, ← ih (nid + 2) uid]
    · simp [hud, ← ih (nid + 2) uid]

/-- Per-recipient count of email/pendiente rows produced by the fan-out
loop. -/
theorem crearNotifsLoop_count_email (t : Ticket) (op : Option Usuario)
    (suc : Option Sucursal) (a : String) :
    ∀ (dests : List Usuario) (nid uid : Nat),
      countP (crearNotifsLoop t op suc a dests nid)
        (fun n => n.usuario_destino_id == uid && n.canal == ("email") &&
          n.estado_envio == ("pendiente")) =
      countP dests (fun d => d.id == uid) := by
  intro dests
  induction dests with
  | nil => intro nid uid; rfl
  | cons d ds ih =>
    intro nid uid
    rw [crearNotifsLoop]
    unfold countP at ih ⊢
    rw [List.filter_cons, List.filter_cons, List.filter_cons]
    by_cases hud : d.id = uid
    · simp [hud, ← ih (nid + 2) uid]
    · simp [hud, ← ih (nid + 2) uid]

/-- Per-user total count of rows produced by the fan-out loop. -/
theorem crearNotifsLoop_count_destino (t : Ticket) (op : Option Usuario)
    (suc : Option Sucursal) (a : String) :
    ∀ (dests : List Usuario) (nid uid : Nat),
      countP (crearNotifsLoop t op suc a dests nid)
        (fun n => n.usuario_destino_id == uid) =
      2 * countP dests (fun d => d.id == uid) := by
  intro dests
  induction dests with
  | nil => intro nid uid; rfl
  | cons d ds ih =>
    intro nid uid
    rw [crearNotifsLoop]
    unfold countP at ih ⊢
    rw [List.filter_cons, List.filter_cons, List.filter_cons]
    by_cases hud : d.id = uid
    · simp only [hud, beq_self_eq_true, if_true, List.length_cons, if_pos]
      have := ih (nid + 2) uid
      omega
    · have hb : (d.id == uid) = false := by simp [hud]
      simp only [hb, Bool.false_eq_true, if_false]
      exact ih (nid + 2) uid

/-- C3 amended: the fan-out resolves the creating operator and every active
supervisor regardless of branch (no branch scoping and no tiered fallback),
keeps exactly the candidates with a usable email de-duplicated by user id,
and appends, for each kept recipient, exactly one interno row born enviado
and one email row born pendiente (two rows in total per recipient);
candidates without usable email receive no row on either channel. -/
theorem fanOut_porDestinatario (db : DB) (t : Ticket)
    (hids : (db.usuarios.map (fun u => u.id)).Nodup) :
    ((crearNotificacionesPorTicketCreado db t).2.operador =
      db.usuarios.find? (fun u => u.id == t.usuario_creador_id)) ∧
    ((crearNotificacionesPorTicketCreado db t).1.notificaciones =
      db.notificaciones ++ (crearNotificacionesPorTicketCreado db t).2.notifsCreadas) ∧
    (∀ u : Usuario, u ∈ (crearNotificacionesPorTicketCreado db t).2.destinatarios ↔
      (usableEmail u = true ∧ u ∈ poolDestinatarios db.usuarios t)) ∧
    (((crearNotificacionesPorTicketCreado db t).2.destinatarios.map
        (fun u => u.id)).Nodup) ∧
    (∀ d ∈ (crearNotificacionesPorTicketCreado db t).2.destinatarios,
      countP (crearNotificacionesPorTicketCreado db t).2.notifsCreadas
          (fun n => n.usuario_destino_id == d.id && n.canal == ("interno") &&
            n.estado_envio == ("enviado")) = 1 ∧
      countP (crearNotificacionesPorTicketCreado db t).2.notifsCreadas
          (fun n => n.usuario_destino_id == d.id && n.canal == ("email") &&
            n.estado_envio == ("pendiente")) = 1 ∧
      countP (crearNotificacionesPorTicketCreado db t).2.notifsCreadas
          (fun n => n.usuario_destino_id == d.id) = 2) ∧
    (∀ u ∈ db.usuarios, usableEmail u = false →
      countP (crearNotificacionesPorTicketCreado db t).2.notifsCreadas
          (fun n => n.usuario_destino_id == u.id) = 0) := by
  have hcons : ∀ a ∈ poolDestinatarios db.usuarios t,
      ∀ b ∈ poolDestinatarios db.usuarios t, a.id = b.id → a = b := by
    intro a ha b hb hab
    exact List.inj_on_of_nodup_map hids
      (mem_poolDestinatarios db.usuarios t a ha)
      (mem_poolDestinatarios db.usuarios t b hb) hab
  have hD : (crearNotificacionesPorTicketCreado db t).2.destinatarios =
      filtrarDestinatarios (poolDestinatarios db.usuarios t) [] := rfl
  have hN : (crearNotificacionesPorTicketCreado db t).2.notifsCreadas =
      crearNotifsLoop t (db.usuarios.find? (fun u => u.id == t.usuario_creador_id))
        (db.sucursales.find? (fun s => s.id == t.sucursal_id))
        (buildAsuntoTicketCreado t)
        (filtrarDestinatarios (poolDestinatarios db.usuarios t) []) db.nextId := rfl
  have hDnodup : ((crearNotificacionesPorTicketCreado db t).2.destinatarios.map
      (fun u => u.id)).Nodup := by
    rw [hD]; exact filtrarDestinatarios_ids_nodup _ []
  refine ⟨rfl, rfl, ?_, hDnodup, ?_, ?_⟩
  · intro u
    rw [hD]
    constructor
    · intro hu
      obtain ⟨h1, h2, _⟩ := mem_filtrarDestinatarios_sound _ [] u hu
      exact ⟨h2, h1⟩
    · intro ⟨hmail, hpool⟩
      exact mem_filtrarDestinatarios_complete _ [] u hcons hpool hmail rfl
  · intro d hd
    rw [hD] at hd
    have hone : countP (filtrarDestinatarios (poolDestinatarios db.usuarios t) [])
        (fun u => u.id == d.id) = 1 :=
      countP_id_one _ d (filtrarDestinatarios_ids_nodup _ []) hd
    refine ⟨?_, ?_, ?_⟩
    · rw [hN, crearNotifsLoop_count_interno, hone]
    · rw [hN, crearNotifsLoop_count_email, hone]
    · rw [hN, crearNotifsLoop_count_destino, hone]
  · intro u hu hmail
    have hzero : countP (filtrarDestinatarios (poolDestinatarios db.usuarios t) [])
        (fun x => x.id == u.id) = 0 := by
      apply countP_id_zero
      intro hmem
      obtain ⟨d, hdmem, hdid⟩ := List.mem_map.mp hmem
      obtain ⟨hdpool, hdmail, _⟩ := mem_filtrarDestinatarios_sound _ [] d hdmem
      have : d = u := List.inj_on_of_nodup_map hids
        (mem_poolDestinatarios db.usuarios t d hdpool) hu hdid
      subst this
      rw [hdmail] at hmail
      exact Bool.noConfusion hmail
    rw [hN, crearNotifsLoop_count_destino, hzero]

/-- Witness for the amended C3 at the example database. -/
theorem fanOut_porDestinatario_witness :
    ((crearNotificacionesPorTicketCreado dbEj ticketEj).2.operador =
      dbEj.usuarios.find? (fun u => u.id == ticketEj.usuario_creador_id)) ∧
    ((crearNotificacionesPorTicketCreado dbEj ticketEj).1.notificaciones =
      dbEj.notificaciones ++
        (crearNotificacionesPorTicketCreado dbEj ticketEj).2.notifsCreadas) ∧
    (∀ u : Usuario,
      u ∈ (crearNotificacionesPorTicketCreado dbEj ticketEj).2.destinatarios ↔
      (usableEmail u = true ∧ u ∈ poolDestinatarios dbEj.usuarios ticketEj)) ∧
    (((crearNotificacionesPorTicketCreado dbEj ticketEj).2.destinatarios.map
        (fun u => u.id)).Nodup) ∧
    (∀ d ∈ (crearNotificacionesPorTicketCreado dbEj ticketEj).2.destinatarios,
      countP (crearNotificacionesPorTicketCreado dbEj ticketEj).2.notifsCreadas
          (fun n => n.usuario_destino_id == d.id && n.canal == ("interno") &&
            n.estado_envio == ("enviado")) = 1 ∧
      countP (crearNotificacionesPorTicketCreado dbEj ticketEj).2.notifsCreadas
          (fun n => n.usuario_destino_id == d.id && n.canal == ("email") &&
            n.estado_envio == ("pendiente")) = 1 ∧
      countP (crearNotificacionesPorTicketCreado dbEj ticketEj).2.notifsCreadas
          (fun n => n.usuario_destino_id == d.id) = 2) ∧
    (∀ u ∈ dbEj.usuarios, usableEmail u = false →
      countP (crearNotificacionesPorTicketCreado dbEj ticketEj).2.notifsCreadas
          (fun n => n.usuario_destino_id == u.id) = 0) :=
  fanOut_porDestinatario dbEj ticketEj (by decide)

/-! ## Claim C1: attachment gate -/

/-- Counting distributes over list append. -/
theorem countP_append {α : Type} (l1 l2 : List α) (p : α → Bool) :
    countP (l1 ++ l2) p = countP l1 p + countP l2 p := by
  unfold countP
  rw [List.filter_append, List.length_append]

/-- The upload loop creates one row per file. -/
theorem nuevosAdjuntos_length (tid : Nat) (tipo : Option String) :
    ∀ (files : List UploadedFile) (esP : Bool) (aid : Nat),
      (nuevosAdjuntos tid tipo esP files aid).length = files.length := by
  intro files
  induction files with
  | nil => intro esP aid; rfl
  | cons f fs ih =>
    intro esP aid
    rw [nuevosAdjuntos, List.length_cons, ih, List.length_cons]

/-- Every row created by the upload loop belongs to the uploaded ticket. -/
theorem nuevosAdjuntos_count_ticket (tid : Nat) (tipo : Option String) :
    ∀ (files : List UploadedFile) (esP : Bool) (aid : Nat),
      countP (nuevosAdjuntos tid tipo esP files aid)
        (fun a => a.ticket_id == tid) = files.length := by
  intro files
  induction files with
  | nil => intro esP aid; rfl
  | cons f fs ih =>
    intro esP aid
    rw [nuevosAdjuntos]
    unfold countP at ih ⊢
    rw [List.filter_cons]
    simp only [beq_self_eq_true, if_true, List.length_cons, ih, if_pos]

/-- find? by id commutes with an id-preserving map of the tickets table. -/
theorem find?_map_ticket (g : Ticket → Ticket)
    (hid : ∀ x, (g x).id = x.id) (l : List Ticket) (i : Nat) :
    (l.map g).find? (fun x => x.id == i) =
      (l.find? (fun x => x.id == i)).map g := by
  induction l with
  | nil => rfl
  | cons a l ih =>
    by_cases h : a.id = i
    · rw [List.map_cons, List.find?_cons_of_pos _ (by simp [hid, h]),
        List.find?_cons_of_pos _ (by simp [h])]
      rfl
    · rw [List.map_cons, List.find?_cons_of_neg _ (by simp [hid, h]),
        List.find?_cons_of_neg _ (by simp [h])]
      exact ih

/-- C1: an AttachFiles call that passes validation on a ticket whose entry
state is pendiente_adjuntos fires the gate inside the transaction — the
ticket transitions to pendiente, exactly one history entry
(pendiente_adjuntos to pendiente) is appended, the fan-out runs on the
updated ticket, and the response reports ticketFinalizado; on any other
entry state the call appends no such history entry, creates no
notification, and never changes the tickets table. -/
theorem adjuntosGate (db : DB) (ctx : UserCtx) (tid : Nat)
    (files : List UploadedFile) (body : AdjuntoBody) (t : Ticket)
    (ht : db.tickets.find? (fun x => x.id == tid) = some t)
    (hfiles : ¬(files = []))
    (hperm : ¬(ctx.rol = some ("operador_sucursal") ∧ ctx.id ≠ some t.usuario_creador_id)) :
    (t.estado = ("pendiente_adjuntos") →
      (∃ adjs, (CR_TicketAdjunto_CTS db ctx (some tid) files body).2 =
        ApiResult.ok { adjuntos := adjs, ticketFinalizado := true }) ∧
      (CR_TicketAdjunto_CTS db ctx (some tid) files body).1.historial =
        db.historial ++ [histGateAdjuntos tid ctx.id] ∧
      (CR_TicketAdjunto_CTS db ctx (some tid) files body).1.tickets.find?
          (fun x => x.id == tid) = some { t with estado := ("pendiente") } ∧
      (CR_TicketAdjunto_CTS db ctx (some tid) files body).1.notificaciones =
        db.notificaciones ++
          fanOutNotifs db.usuarios db.sucursales { t with estado := ("pendiente") }
            (db.nextId + files.length)) ∧
    (t.estado ≠ ("pendiente_adjuntos") →
      (CR_TicketAdjunto_CTS db ctx (some tid) files body).1.historial = db.historial ∧
      (CR_TicketAdjunto_CTS db ctx (some tid) files body).1.notificaciones =
        db.notificaciones ∧
      (CR_TicketAdjunto_CTS db ctx (some tid) files body).1.tickets = db.tickets) := by
  have hcount : ∀ (l : List Adjunto) (esP : Bool) (aid : Nat),
      1 ≤ countP (l ++ nuevosAdjuntos tid body.tipo esP files aid)
        (fun a => a.ticket_id == tid) := by
    intro l esP aid
    rw [countP_append, nuevosAdjuntos_count_ticket]
    have := List.length_pos.mpr hfiles
    omega
  have hfind : ∀ (l : List Ticket), l.find? (fun x => x.id == tid) = some t →
      (l.map (fun x => if x.id == tid then { x with estado := ("pendiente") } else x)).find?
          (fun x => x.id == tid) = some { t with estado := ("pendiente") } := by
    intro l hl
    rw [find?_map_ticket _ (by
      intro x
      by_cases h : x.id = tid <;> simp [h]) l tid, hl]
    have htid : t.id = tid := by simpa using List.find?_some hl
    simp [htid]
  unfold CR_TicketAdjunto_CTS
  dsimp only
  rw [if_neg hfiles, ht]
  dsimp only
  rw [if_neg hperm]
  constructor
  · intro hstate
    have heditable : ¬(ESTADOS_EDITABLES.contains t.estado = false) := by
      rw [hstate]; decide
    rw [if_neg heditable]
    unfold adjuntarYFinalizar
    dsimp only
    rw [if_pos hstate]
    generalize (match body.es_principal with
      | some v => parseEsPrincipal v
      | none =>
        (countP db.adjuntos fun a => a.ticket_id == tid && a.es_principal == 1) == 0) = esPG
    cases esPG with
    | true =>
      rw [if_pos (hcount _ _ _)]
      refine ⟨⟨_, rfl⟩, rfl, ?_, ?_⟩
      · exact hfind db.tickets ht
      · rw [crearNotifs_solo_notificaciones _ _ |>.2.2.2.2.2]
        simp [demoterPrincipales, actualizarTicket, nuevosAdjuntos_length]
    | false =>
      rw [if_pos (hcount _ _ _)]
      refine ⟨⟨_, rfl⟩, rfl, ?_, ?_⟩
      · exact hfind db.tickets ht
      · rw [crearNotifs_solo_notificaciones _ _ |>.2.2.2.2.2]
        simp [actualizarTicket, nuevosAdjuntos_length]
  · intro hstate
    by_cases heditable : ESTADOS_EDITABLES.contains t.estado = false
    · rw [if_pos heditable]
      exact ⟨rfl, rfl, rfl⟩
    · rw [if_neg heditable]
      unfold adjuntarYFinalizar
      dsimp only
      rw [if_neg hstate]
      generalize (match body.es_principal with
        | some v => parseEsPrincipal v
        | none =>
          (countP db.adjuntos fun a => a.ticket_id == tid && a.es_principal == 1) == 0) = esPG
      cases esPG with
      | true => exact ⟨rfl, rfl, rfl⟩
      | false => exact ⟨rfl, rfl, rfl⟩

/-- Single uploaded image used by the C1 and C8 witnesses. -/
def archivoEj : UploadedFile :=
  { originalname := ("f.png"), mimetype := ("image/png"), size := 10
    ruta_relativa := ("uploads/tickets/8/f.png") }

/-- Body without explicit tipo or es_principal. -/
def bodyVacio : AdjuntoBody :=
  { tipo := none, es_principal := none }

/-- Witness for C1: the operator uploads the first attachment of the
draft ticket (entry state pendiente_adjuntos), and the gate fires. -/
theorem adjuntosGate_witness :
    (ticketBorrador.estado = ("pendiente_adjuntos") →
      (∃ adjs, (CR_TicketAdjunto_CTS dbEj ctxOperador (some 8) [archivoEj] bodyVacio).2 =
        ApiResult.ok { adjuntos := adjs, ticketFinalizado := true }) ∧
      (CR_TicketAdjunto_CTS dbEj ctxOperador (some 8) [archivoEj] bodyVacio).1.historial =
        dbEj.historial ++ [histGateAdjuntos 8 ctxOperador.id] ∧
      (CR_TicketAdjunto_CTS dbEj ctxOperador (some 8) [archivoEj] bodyVacio).1.tickets.find?
          (fun x => x.id == 8) = some { ticketBorrador with estado := ("pendiente") } ∧
      (CR_TicketAdjunto_CTS dbEj ctxOperador (some 8) [archivoEj] bodyVacio).1.notificaciones =
        dbEj.notificaciones ++
          fanOutNotifs dbEj.usuarios dbEj.sucursales
            { ticketBorrador with estado := ("pendiente") } (dbEj.nextId + 1)) ∧
    (ticketBorrador.estado ≠ ("pendiente_adjuntos") →
      (CR_TicketAdjunto_CTS dbEj ctxOperador (some 8) [archivoEj] bodyVacio).1.historial =
        dbEj.historial ∧
      (CR_TicketAdjunto_CTS dbEj ctxOperador (some 8) [archivoEj] bodyVacio).1.notificaciones =
        dbEj.notificaciones ∧
      (CR_TicketAdjunto_CTS dbEj ctxOperador (some 8) [archivoEj] bodyVacio).1.tickets =
        dbEj.tickets) :=
  adjuntosGate dbEj ctxOperador 8 [archivoEj] bodyVacio ticketBorrador
    (by decide) (by decide) (by decide)

/-! ## Claim C8: at most one primary attachment per ticket -/

/-- Invariant: no ticket ever has two attachments flagged es_principal. -/
def AtMostOnePrimary (db : DB) : Prop :=
  ∀ tid : Nat,
    countP db.adjuntos (fun a => a.ticket_id == tid && a.es_principal == 1) ≤ 1

/-- One AttachFiles request: caller identity, target ticket, uploaded files
and body fields. -/
structure AttachOp where
  ctx : UserCtx
  ticketId : Option Nat
  files : List UploadedFile
  body : AdjuntoBody
deriving Repr, DecidableEq

/-- State reached by one AttachFiles call (its response is dropped). -/
def aplicarAttachFiles (db : DB) (op : AttachOp) : DB :=
  (CR_TicketAdjunto_CTS db op.ctx op.ticketId op.files op.body).1

/-- List form of the demotion update: the demoted ticket keeps no primary
row. -/
theorem demote_list_self (tid : Nat) :
    ∀ l : List Adjunto,
      countP (l.map (fun a =>
          if a.ticket_id == tid then { a with es_principal := 0 } else a))
        (fun a => a.ticket_id == tid && a.es_principal == 1) = 0 := by
  intro l
  induction l with
  | nil => rfl
  | cons a l ih =>
    simp only [countP, List.map_cons, List.filter_cons] at ih ⊢
    by_cases ha : a.ticket_id = tid
    · simpa [ha] using ih
    · simpa [ha] using ih

/-- After demotion, the demoted ticket has no primary attachment left. -/
theorem demote_count_self (db : DB) (tid : Nat) :
    countP (demoterPrincipales db tid).adjuntos
      (fun a => a.ticket_id == tid && a.es_principal == 1) = 0 :=
  demote_list_self tid db.adjuntos

/-- List form of the demotion update: every other ticket's primary count is
untouched. -/
theorem demote_list_other (tid tid2 : Nat) (h : tid2 ≠ tid) :
    ∀ l : List Adjunto,
      countP (l.map (fun a =>
          if a.ticket_id == tid then { a with es_principal := 0 } else a))
        (fun a => a.ticket_id == tid2 && a.es_principal == 1) =
      countP l (fun a => a.ticket_id == tid2 && a.es_principal == 1) := by
  intro l
  induction l with
  | nil => rfl
  | cons a l ih =>
    simp only [countP, List.map_cons, List.filter_cons] at ih ⊢
    by_cases ha : a.ticket_id = tid
    · simpa [ha, Ne.symm h] using ih
    · by_cases hp : (a.ticket_id == tid2 && a.es_principal == 1) = true
      · simpa [ha, hp] using ih
      · simpa [ha, hp] using ih

/-- Demotion of one ticket's attachments leaves every other ticket's
primary count unchanged. -/
theorem demote_count_other (db : DB) (tid tid2 : Nat) (h : tid2 ≠ tid) :
    countP (demoterPrincipales db tid).adjuntos
        (fun a => a.ticket_id == tid2 && a.es_principal == 1) =
      countP db.adjuntos (fun a => a.ticket_id == tid2 && a.es_principal == 1) :=
  demote_list_other tid tid2 h db.adjuntos

/-- Rows created with the primary flag off contribute no primary. -/
theorem nuevos_prim_false (tid : Nat) (tipo : Option String) :
    ∀ (files : List UploadedFile) (aid tid2 : Nat),
      countP (nuevosAdjuntos tid tipo false files aid)
        (fun a => a.ticket_id == tid2 && a.es_principal == 1) = 0 := by
  intro files
  induction files with
  | nil => intro aid tid2; rfl
  | cons f fs ih =>
    intro aid tid2
    rw [nuevosAdjuntos]
    unfold countP at ih ⊢
    rw [List.filter_cons]
    rw [if_neg (by simp)]
    exact ih (aid + 1) tid2

/-- An upload batch creates at most one primary row. -/
theorem nuevos_prim_le (tid : Nat) (tipo : Option String)
    (esP : Bool) (files : List UploadedFile) (aid tid2 : Nat) :
    countP (nuevosAdjuntos tid tipo esP files aid)
      (fun a => a.ticket_id == tid2 && a.es_principal == 1) ≤ 1 := by
  cases esP with
  | false =>
    rw [nuevos_prim_false]
    exact Nat.zero_le 1
  | true =>
    cases files with
    | nil => exact Nat.zero_le 1
    | cons f fs =>
      rw [nuevosAdjuntos]
      have h0 := nuevos_prim_false tid tipo fs (aid + 1) tid2
      unfold countP at h0 ⊢
      rw [List.filter_cons]
      by_cases htt : tid = tid2
      · rw [if_pos (by simp [htt]), List.length_cons, h0]
      · rw [if_neg (by simp [htt]), h0]
        exact Nat.zero_le 1

/-- Rows created for one ticket contribute no primary to any other
ticket. -/
theorem nuevos_prim_other (tid : Nat) (tipo : Option String) :
    ∀ (files : List UploadedFile) (esP : Bool) (aid tid2 : Nat), tid2 ≠ tid →
      countP (nuevosAdjuntos tid tipo esP files aid)
        (fun a => a.ticket_id == tid2 && a.es_principal == 1) = 0 := by
  intro files
  induction files with
  | nil => intro esP aid tid2 _; rfl
  | cons f fs ih =>
    intro esP aid tid2 hne
    rw [nuevosAdjuntos]
    unfold countP at ih ⊢
    rw [List.filter_cons]
    have hb : ((tid : Nat) == tid2) = false := by simp [Ne.symm hne]
    simp only [hb, Bool.false_and, Bool.false_eq_true, if_false]
    exact ih false (aid + 1) tid2 hne

/-- The attachments table produced by the transactional upload body is the
(possibly demoted) previous table plus the new batch. -/
theorem adjuntarYFinalizar_adjuntos (db : DB) (ctx : UserCtx) (tid : Nat)
    (t : Ticket) (files : List UploadedFile) (body : AdjuntoBody) :
    ∃ esP : Bool,
      (adjuntarYFinalizar db ctx tid t files body).1.adjuntos =
        (if esP then demoterPrincipales db tid else db).adjuntos ++
          nuevosAdjuntos tid body.tipo esP files
            (if esP then demoterPrincipales db tid else db).nextId := by
  unfold adjuntarYFinalizar
  dsimp only
  generalize (match body.es_principal with
    | some v => parseEsPrincipal v
    | none =>
      (countP db.adjuntos fun a => a.ticket_id == tid && a.es_principal == 1) == 0) = esPG
  refine ⟨esPG, ?_⟩
  repeat' split
  all_goals first
    | exact crearNotifs_solo_notificaciones _ _ |>.2.2.1
    | rfl

/-- The transactional upload body preserves the single-primary invariant. -/
theorem adjuntarYFinalizar_inv (db : DB) (ctx : UserCtx) (tid : Nat)
    (t : Ticket) (files : List UploadedFile) (body : AdjuntoBody)
    (hinv : AtMostOnePrimary db) :
    AtMostOnePrimary (adjuntarYFinalizar db ctx tid t files body).1 := by
  obtain ⟨esP, heq⟩ := adjuntarYFinalizar_adjuntos db ctx tid t files body
  intro tid2
  rw [heq, countP_append]
  cases esP with
  | true =>
    by_cases htid : tid2 = tid
    · subst htid
      have h1 := demote_count_self db tid2
      have h2 := nuevos_prim_le tid2 body.tipo true files
        (demoterPrincipales db tid2).nextId tid2
      simp only [if_pos]
      omega
    · have h1 := demote_count_other db tid tid2 htid
      have h2 := hinv tid2
      have h3 := nuevos_prim_other tid body.tipo files true
        (demoterPrincipales db tid).nextId tid2 htid
      simp only [if_pos]
      omega
  | false =>
    have h1 := hinv tid2
    have h2 := nuevos_prim_false tid body.tipo files db.nextId tid2
    simp only [Bool.false_eq_true, if_false]
    omega

/-- One AttachFiles call preserves the single-primary invariant. -/
theorem attach_step_inv (db : DB) (op : AttachOp)
    (hinv : AtMostOnePrimary db) :
    AtMostOnePrimary (aplicarAttachFiles db op) := by
  unfold aplicarAttachFiles CR_TicketAdjunto_CTS
  split
  · exact hinv
  · split
    · exact hinv
    · split
      · exact hinv
      · split
        · exact hinv
        · split
          · exact hinv
          · exact adjuntarYFinalizar_inv _ _ _ _ _ _ hinv

/-- C8: starting from any state where every ticket has at most one primary
attachment, any sequence of AttachFiles calls — each demoting the siblings
when it designates a new primary and flagging at most the first file of its
batch — leaves every ticket with at most one primary attachment. -/
theorem adjuntos_unPrincipal (ops : List AttachOp) (db : DB)
    (hinv : AtMostOnePrimary db) :
    AtMostOnePrimary (ops.foldl aplicarAttachFiles db) := by
  induction ops generalizing db with
  | nil => exact hinv
  | cons op ops ih =>
    rw [List.foldl_cons]
    exact ih _ (attach_step_inv db op hinv)

/-- AttachFiles request used by the C8 witness. -/
def opEj : AttachOp :=
  { ctx := ctxOperador, ticketId := some 8, files := [archivoEj]
    body := bodyVacio }

/-- Witness for C8: two consecutive uploads to the draft ticket keep the
invariant from the empty attachment table. -/
theorem adjuntos_unPrincipal_witness :
    AtMostOnePrimary ([opEj, opEj].foldl aplicarAttachFiles dbEj) :=
  adjuntos_unPrincipal [opEj, opEj] dbEj
    (by intro tid; simp [countP, dbEj])

end Conectate
